import Mathlib

/-
Verification of the schema-driven JSONL-to-SQLite transformation engine of
eve-sde-to-sqlite: a shallow embedding of the table-schema registry
(src/schema/tables.rs, src/schema/types.rs), the dependency resolver
(src/schema/dependencies.rs), the record parser (src/parser/record.rs) and the
index generator (src/writer/schema_gen.rs), together with theorems about
dependency ordering, include/exclude resolution, field resolution, value
coercion and index generation.

Modelling conventions:
- Rust `&'static str` becomes `String`; `HashSet`/`HashMap` become lists with
  membership semantics (iteration order of Rust hash containers is
  unspecified; every ordering-sensitive theorem below is proved for an
  arbitrary iteration order where the Rust order is unspecified).
- `serde_json::Value` becomes the inductive `Json`; a JSONL line that fails
  `serde_json::from_str` is modelled as the `none` case of an `Option Json`
  argument, a successfully parsed line as `some j`.
- Recursive procedures of the resolver take an explicit fuel parameter; the
  fuel bounds are generous enough that they never run out on the fixed
  65-table registry (proved where a claim needs success).
- serde_json float rendering (ryu) is not modelled bit-exactly in
  `serializeNum`; no claim below depends on float formatting.
-/

namespace Sde

/-! ## Schema model (src/schema/types.rs) -/

/-- Supported languages for localized text (`LANGUAGES` in types.rs). -/
def LANGUAGES : List String := ["en", "de", "es", "fr", "ja", "ko", "ru", "zh"]

/-- Column data type (`ColumnType` in types.rs). -/
inductive ColumnType where
  | Integer
  | Real
  | Text
  | Boolean
  | Localized
  | Json
  deriving DecidableEq, Repr

/-- Column definition (`Column` in types.rs). -/
structure Column where
  name : String
  col_type : ColumnType
  nullable : Bool
  json_field : Option String
  deriving DecidableEq, Repr

/-- `Column::new`: an optional (nullable) column. -/
def Column.new (name : String) (col_type : ColumnType) : Column :=
  { name := name, col_type := col_type, nullable := true, json_field := none }

/-- `Column::required`: a required (non-nullable) column. -/
def Column.required (name : String) (col_type : ColumnType) : Column :=
  { name := name, col_type := col_type, nullable := false, json_field := none }

/-- `Column::json`: set the JSON field name override. -/
def Column.json (c : Column) (field : String) : Column :=
  { c with json_field := some field }

/-- Foreign key reference (`ForeignKey` in types.rs). -/
structure ForeignKey where
  column : String
  references_table : String
  references_column : String
  deriving DecidableEq, Repr

/-- `ForeignKey::new` (references column defaults to `id`). -/
def ForeignKey.new (column : String) (references_table : String) : ForeignKey :=
  { column := column, references_table := references_table, references_column := "id" }

/-- Index definition (`Index` in types.rs). -/
structure Index where
  columns : List String
  unique : Bool
  deriving DecidableEq, Repr

/-- `Index::on`: a non-unique index. -/
def Index.on (columns : List String) : Index :=
  { columns := columns, unique := false }

/-- `ArraySource` (types.rs): the five nested-array extraction strategies. -/
inductive ArraySource where
  | Simple (array_field : String) (parent_id_column : String)
  | SimpleIntArray (array_field : String) (parent_id_column : String) (value_column : String)
  | BlueprintActivity (activity_column : String) (array_field : String)
  | NestedKeyValue (array_field : String) (parent_id_column : String) (nested_key_column : String)
  | DoubleNested (parent_id_column : String) (level_key_column : String)
  deriving DecidableEq, Repr

/-- Table schema definition (`TableSchema` in types.rs). -/
structure TableSchema where
  name : String
  source_file : String
  columns : List Column
  foreign_keys : List ForeignKey
  indexes : List Index
  child_tables : List String
  array_source : Option ArraySource
  deriving DecidableEq, Repr

/-- `TableSchema::dependencies`: the distinct `references_table` values of all
foreign keys (a `HashSet` in Rust, modelled as a deduplicated list). Note that
the source does not remove the table's own name. -/
def TableSchema.dependencies (t : TableSchema) : List String :=
  (t.foreign_keys.map (fun fk => fk.references_table)).dedup


/-! ## Table registry (src/schema/tables.rs) -/

def CATEGORIES : TableSchema :=
  { name := "categories"
  , source_file := "categories.jsonl"
  , columns :=
      [ Column.required "id" ColumnType.Integer
      , Column.new "name" ColumnType.Localized
      , Column.new "published" ColumnType.Boolean ]
  , foreign_keys := []
  , indexes := [ Index.on ["name_en"], Index.on ["published"] ]
  , child_tables := []
  , array_source := none }

def DOGMA_ATTRIBUTE_CATEGORIES : TableSchema :=
  { name := "dogma_attribute_categories"
  , source_file := "dogmaAttributeCategories.jsonl"
  , columns :=
      [ Column.required "id" ColumnType.Integer
      , Column.new "description" ColumnType.Text
      , Column.new "name" ColumnType.Text ]
  , foreign_keys := []
  , indexes := [ Index.on ["name"] ]
  , child_tables := []
  , array_source := none }

def DOGMA_UNITS : TableSchema :=
  { name := "dogma_units"
  , source_file := "dogmaUnits.jsonl"
  , columns :=
      [ Column.required "id" ColumnType.Integer
      , Column.new "description" ColumnType.Text
      , Column.new "display_name" ColumnType.Text
      , Column.new "name" ColumnType.Text ]
  , foreign_keys := []
  , indexes := [ Index.on ["name"] ]
  , child_tables := []
  , array_source := none }

def ICONS : TableSchema :=
  { name := "icons"
  , source_file := "icons.jsonl"
  , columns :=
      [ Column.required "id" ColumnType.Integer
      , Column.new "description" ColumnType.Text
      , Column.new "icon_file" ColumnType.Text ]
  , foreign_keys := []
  , indexes := []
  , child_tables := []
  , array_source := none }

def GRAPHICS : TableSchema :=
  { name := "graphics"
  , source_file := "graphics.jsonl"
  , columns :=
      [ Column.required "id" ColumnType.Integer
      , Column.new "description" ColumnType.Text
      , Column.new "graphic_file" ColumnType.Text
      , Column.new "sof_faction_name" ColumnType.Text
      , Column.new "sof_hull_name" ColumnType.Text
      , Column.new "sof_race_name" ColumnType.Text ]
  , foreign_keys := []
  , indexes := []
  , child_tables := []
  , array_source := none }

def AGENT_TYPES : TableSchema :=
  { name := "agent_types"
  , source_file := "agentTypes.jsonl"
  , columns :=
      [ Column.required "id" ColumnType.Integer
      , Column.new "name" ColumnType.Text ]
  , foreign_keys := []
  , indexes := []
  , child_tables := []
  , array_source := none }

def STATION_SERVICES : TableSchema :=
  { name := "station_services"
  , source_file := "stationServices.jsonl"
  , columns :=
      [ Column.required "id" ColumnType.Integer
      , Column.new "service_name" ColumnType.Text ]
  , foreign_keys := []
  , indexes := [ Index.on ["service_name"] ]
  , child_tables := []
  , array_source := none }

def CORPORATION_ACTIVITIES : TableSchema :=
  { name := "corporation_activities"
  , source_file := "corporationActivities.jsonl"
  , columns :=
      [ Column.required "id" ColumnType.Integer
      , Column.new "name" ColumnType.Localized ]
  , foreign_keys := []
  , indexes := [ Index.on ["name_en"] ]
  , child_tables := []
  , array_source := none }

def META_GROUPS : TableSchema :=
  { name := "meta_groups"
  , source_file := "metaGroups.jsonl"
  , columns :=
      [ Column.required "id" ColumnType.Integer
      , Column.new "name" ColumnType.Localized
      , Column.new "description" ColumnType.Localized
      , Column.new "icon_id" ColumnType.Integer
      , Column.new "icon_suffix" ColumnType.Text ]
  , foreign_keys := []
  , indexes := [ Index.on ["name_en"] ]
  , child_tables := []
  , array_source := none }

def CHARACTER_ATTRIBUTES : TableSchema :=
  { name := "character_attributes"
  , source_file := "characterAttributes.jsonl"
  , columns :=
      [ Column.required "id" ColumnType.Integer
      , Column.new "name" ColumnType.Localized
      , Column.new "description" ColumnType.Localized
      , Column.new "short_description" ColumnType.Localized
      , Column.new "notes" ColumnType.Text
      , Column.new "icon_id" ColumnType.Integer ]
  , foreign_keys := []
  , indexes := [ Index.on ["name_en"] ]
  , child_tables := []
  , array_source := none }

def TRANSLATION_LANGUAGES : TableSchema :=
  { name := "translation_languages"
  , source_file := "translationLanguages.jsonl"
  , columns :=
      [ Column.required "id" ColumnType.Integer
      , Column.new "name" ColumnType.Text ]
  , foreign_keys := []
  , indexes := []
  , child_tables := []
  , array_source := none }

def SKIN_MATERIALS : TableSchema :=
  { name := "skin_materials"
  , source_file := "skinMaterials.jsonl"
  , columns :=
      [ Column.required "id" ColumnType.Integer
      , Column.new "display_name" ColumnType.Localized
      , Column.new "material_set_id" ColumnType.Integer ]
  , foreign_keys := []
  , indexes := [ Index.on ["display_name_en"], Index.on ["material_set_id"] ]
  , child_tables := []
  , array_source := none }

def LANDMARKS : TableSchema :=
  { name := "landmarks"
  , source_file := "landmarks.jsonl"
  , columns :=
      [ Column.required "id" ColumnType.Integer
      , Column.new "name" ColumnType.Localized
      , Column.new "description" ColumnType.Localized
      , Column.new "importance" ColumnType.Integer
      , Column.new "location_id" ColumnType.Integer
      , Column.new "position_x" ColumnType.Real
      , Column.new "position_y" ColumnType.Real
      , Column.new "position_z" ColumnType.Real ]
  , foreign_keys := []
  , indexes := [ Index.on ["name_en"], Index.on ["location_id"] ]
  , child_tables := []
  , array_source := none }

def NPC_CORPORATION_DIVISIONS : TableSchema :=
  { name := "npc_corporation_divisions"
  , source_file := "npcCorporationDivisions.jsonl"
  , columns :=
      [ Column.required "id" ColumnType.Integer
      , Column.new "name" ColumnType.Localized
      , Column.new "display_name" ColumnType.Text
      , Column.new "internal_name" ColumnType.Text
      , Column.new "leader_type_name" ColumnType.Localized ]
  , foreign_keys := []
  , indexes := [ Index.on ["name_en"] ]
  , child_tables := []
  , array_source := none }

def PLANET_RESOURCES : TableSchema :=
  { name := "planet_resources"
  , source_file := "planetResources.jsonl"
  , columns :=
      [ Column.required "id" ColumnType.Integer
      , Column.new "power" ColumnType.Integer ]
  , foreign_keys := []
  , indexes := []
  , child_tables := []
  , array_source := none }

def CLONE_GRADES : TableSchema :=
  { name := "clone_grades"
  , source_file := "cloneGrades.jsonl"
  , columns :=
      [ Column.required "id" ColumnType.Integer
      , Column.new "name" ColumnType.Text ]
  , foreign_keys := []
  , indexes := []
  , child_tables := ["clone_grade_skills"]
  , array_source := none }

def PLANET_SCHEMATICS : TableSchema :=
  { name := "planet_schematics"
  , source_file := "planetSchematics.jsonl"
  , columns :=
      [ Column.required "id" ColumnType.Integer
      , Column.new "name" ColumnType.Localized
      , Column.new "cycle_time" ColumnType.Integer ]
  , foreign_keys := []
  , indexes := [ Index.on ["name_en"] ]
  , child_tables := ["planet_schematic_pins", "planet_schematic_types"]
  , array_source := none }

def RACES : TableSchema :=
  { name := "races"
  , source_file := "races.jsonl"
  , columns :=
      [ Column.required "id" ColumnType.Integer
      , Column.new "name" ColumnType.Localized
      , Column.new "description" ColumnType.Localized
      , Column.new "icon_id" ColumnType.Integer
      , Column.new "ship_type_id" ColumnType.Integer ]
  , foreign_keys :=
      [ ForeignKey.new "icon_id" "icons" ]
  , indexes := [ Index.on ["name_en"] ]
  , child_tables := []
  , array_source := none }

def GROUPS : TableSchema :=
  { name := "groups"
  , source_file := "groups.jsonl"
  , columns :=
      [ Column.required "id" ColumnType.Integer
      , Column.new "name" ColumnType.Localized
      , Column.new "category_id" ColumnType.Integer
      , Column.new "published" ColumnType.Boolean
      , Column.new "anchorable" ColumnType.Boolean
      , Column.new "anchored" ColumnType.Boolean
      , Column.new "fittable_non_singleton" ColumnType.Boolean
      , Column.new "icon_id" ColumnType.Integer
      , Column.new "use_base_price" ColumnType.Boolean ]
  , foreign_keys :=
      [ ForeignKey.new "category_id" "categories"
      , ForeignKey.new "icon_id" "icons" ]
  , indexes := [ Index.on ["category_id"], Index.on ["name_en"], Index.on ["published"] ]
  , child_tables := []
  , array_source := none }

def DOGMA_ATTRIBUTES : TableSchema :=
  { name := "dogma_attributes"
  , source_file := "dogmaAttributes.jsonl"
  , columns :=
      [ Column.required "id" ColumnType.Integer
      , Column.new "name" ColumnType.Text
      , Column.new "description" ColumnType.Text
      , Column.new "display_name" ColumnType.Localized
      , Column.new "tooltip_title" ColumnType.Localized
      , Column.new "tooltip_description" ColumnType.Localized
      , Column.new "attribute_category_id" ColumnType.Integer
      , Column.new "data_type" ColumnType.Integer
      , Column.new "default_value" ColumnType.Real
      , Column.new "display_when_zero" ColumnType.Boolean
      , Column.new "high_is_good" ColumnType.Boolean
      , Column.new "icon_id" ColumnType.Integer
      , Column.new "published" ColumnType.Boolean
      , Column.new "stackable" ColumnType.Boolean
      , Column.new "unit_id" ColumnType.Integer ]
  , foreign_keys :=
      [ ForeignKey.new "attribute_category_id" "dogma_attribute_categories"
      , ForeignKey.new "icon_id" "icons"
      , ForeignKey.new "unit_id" "dogma_units" ]
  , indexes := [ Index.on ["unit_id"], Index.on ["name"], Index.on ["published"] ]
  , child_tables := []
  , array_source := none }

def DOGMA_EFFECTS : TableSchema :=
  { name := "dogma_effects"
  , source_file := "dogmaEffects.jsonl"
  , columns :=
      [ Column.required "id" ColumnType.Integer
      , Column.new "name" ColumnType.Text
      , Column.new "description" ColumnType.Text
      , Column.new "display_name" ColumnType.Localized
      , Column.new "effect_category" ColumnType.Integer
      , Column.new "effect_name" ColumnType.Text
      , Column.new "guid" ColumnType.Text
      , Column.new "icon_id" ColumnType.Integer
      , Column.new "is_assistance" ColumnType.Boolean
      , Column.new "is_offensive" ColumnType.Boolean
      , Column.new "is_warp_safe" ColumnType.Boolean
      , Column.new "published" ColumnType.Boolean
      , Column.new "range_chance" ColumnType.Boolean
      , Column.new "electronic_chance" ColumnType.Boolean
      , Column.new "propulsion_chance" ColumnType.Boolean
      , Column.new "disallow_auto_repeat" ColumnType.Boolean
      , Column.new "distribution" ColumnType.Integer
      , Column.new "duration_attribute_id" ColumnType.Integer
      , Column.new "discharge_attribute_id" ColumnType.Integer
      , Column.new "falloff_attribute_id" ColumnType.Integer
      , Column.new "range_attribute_id" ColumnType.Integer
      , Column.new "tracking_speed_attribute_id" ColumnType.Integer
      , Column.new "fitting_usage_chance_attribute_id" ColumnType.Integer
      , Column.new "resistance_attribute_id" ColumnType.Integer ]
  , foreign_keys :=
      [ ForeignKey.new "icon_id" "icons" ]
  , indexes := [ Index.on ["icon_id"], Index.on ["name"], Index.on ["published"] ]
  , child_tables := []
  , array_source := none }

def MAP_REGIONS : TableSchema :=
  { name := "map_regions"
  , source_file := "mapRegions.jsonl"
  , columns :=
      [ Column.required "id" ColumnType.Integer
      , Column.new "name" ColumnType.Localized
      , Column.new "description" ColumnType.Localized
      , Column.new "faction_id" ColumnType.Integer
      , Column.new "center_x" ColumnType.Real
      , Column.new "center_y" ColumnType.Real
      , Column.new "center_z" ColumnType.Real
      , Column.new "max_x" ColumnType.Real
      , Column.new "max_y" ColumnType.Real
      , Column.new "max_z" ColumnType.Real
      , Column.new "min_x" ColumnType.Real
      , Column.new "min_y" ColumnType.Real
      , Column.new "min_z" ColumnType.Real
      , Column.new "name_id" ColumnType.Integer
      , Column.new "description_id" ColumnType.Integer
      , Column.new "nebula" ColumnType.Integer
      , Column.new "wormhole_class_id" ColumnType.Integer ]
  , foreign_keys := []
  , indexes := [ Index.on ["faction_id"], Index.on ["name_en"] ]
  , child_tables := []
  , array_source := none }

def MARKET_GROUPS : TableSchema :=
  { name := "market_groups"
  , source_file := "marketGroups.jsonl"
  , columns :=
      [ Column.required "id" ColumnType.Integer
      , Column.new "name" ColumnType.Localized
      , Column.new "description" ColumnType.Localized
      , Column.new "icon_id" ColumnType.Integer
      , Column.new "parent_group_id" ColumnType.Integer
      , Column.new "has_types" ColumnType.Boolean ]
  , foreign_keys :=
      [ ForeignKey.new "icon_id" "icons"
      , ForeignKey.new "parent_group_id" "market_groups" ]
  , indexes := [ Index.on ["parent_group_id"], Index.on ["icon_id"], Index.on ["name_en"] ]
  , child_tables := []
  , array_source := none }

def STATION_OPERATIONS : TableSchema :=
  { name := "station_operations"
  , source_file := "stationOperations.jsonl"
  , columns :=
      [ Column.required "id" ColumnType.Integer
      , Column.new "operation_name" ColumnType.Localized
      , Column.new "description" ColumnType.Localized
      , Column.new "activity_id" ColumnType.Integer
      , Column.new "border" ColumnType.Real
      , Column.new "corridor" ColumnType.Real
      , Column.new "fringe" ColumnType.Real
      , Column.new "hub" ColumnType.Real
      , Column.new "ratio" ColumnType.Real
      , Column.new "manufacturing_factor" ColumnType.Real
      , Column.new "research_factor" ColumnType.Real ]
  , foreign_keys := []
  , indexes := [ Index.on ["activity_id"], Index.on ["operation_name_en"] ]
  , child_tables := []
  , array_source := none }

def SKINS : TableSchema :=
  { name := "skins"
  , source_file := "skins.jsonl"
  , columns :=
      [ Column.required "id" ColumnType.Integer
      , Column.new "internal_name" ColumnType.Text
      , Column.new "skin_material_id" ColumnType.Integer
      , Column.new "allow_ccp_devs" ColumnType.Boolean
      , Column.new "visible_serenity" ColumnType.Boolean
      , Column.new "visible_tranquility" ColumnType.Boolean ]
  , foreign_keys :=
      [ ForeignKey.new "skin_material_id" "skin_materials" ]
  , indexes := [ Index.on ["skin_material_id"] ]
  , child_tables := []
  , array_source := none }

def BLOODLINES : TableSchema :=
  { name := "bloodlines"
  , source_file := "bloodlines.jsonl"
  , columns :=
      [ Column.required "id" ColumnType.Integer
      , Column.new "name" ColumnType.Localized
      , Column.new "description" ColumnType.Localized
      , Column.new "race_id" ColumnType.Integer
      , Column.new "corporation_id" ColumnType.Integer
      , Column.new "charisma" ColumnType.Integer
      , Column.new "intelligence" ColumnType.Integer
      , Column.new "memory" ColumnType.Integer
      , Column.new "perception" ColumnType.Integer
      , Column.new "willpower" ColumnType.Integer
      , Column.new "icon_id" ColumnType.Integer ]
  , foreign_keys :=
      [ ForeignKey.new "race_id" "races"
      , ForeignKey.new "icon_id" "icons" ]
  , indexes := [ Index.on ["race_id"], Index.on ["corporation_id"], Index.on ["name_en"] ]
  , child_tables := []
  , array_source := none }

def FACTIONS : TableSchema :=
  { name := "factions"
  , source_file := "factions.jsonl"
  , columns :=
      [ Column.required "id" ColumnType.Integer
      , Column.new "name" ColumnType.Localized
      , Column.new "description" ColumnType.Localized
      , Column.new "short_description" ColumnType.Localized
      , Column.new "corporation_id" ColumnType.Integer
      , Column.new "militia_corporation_id" ColumnType.Integer
      , Column.new "solar_system_id" ColumnType.Integer
      , Column.new "icon_id" ColumnType.Integer
      , Column.new "size_factor" ColumnType.Real
      , Column.new "unique_name" ColumnType.Boolean ]
  , foreign_keys :=
      [ ForeignKey.new "icon_id" "icons" ]
  , indexes := [ Index.on ["icon_id"], Index.on ["solar_system_id"], Index.on ["corporation_id"], Index.on ["militia_corporation_id"], Index.on ["name_en"] ]
  , child_tables := []
  , array_source := none }

def NPC_CORPORATIONS : TableSchema :=
  { name := "npc_corporations"
  , source_file := "npcCorporations.jsonl"
  , columns :=
      [ Column.required "id" ColumnType.Integer
      , Column.new "name" ColumnType.Localized
      , Column.new "description" ColumnType.Localized
      , Column.new "ceo_id" ColumnType.Integer
      , Column.new "station_id" ColumnType.Integer
      , Column.new "ticker_name" ColumnType.Text
      , Column.new "unique_name" ColumnType.Boolean
      , Column.new "deleted" ColumnType.Boolean
      , Column.new "extent" ColumnType.Text
      , Column.new "has_player_personnel_manager" ColumnType.Boolean
      , Column.new "initial_price" ColumnType.Real
      , Column.new "member_limit" ColumnType.Integer
      , Column.new "min_security" ColumnType.Real
      , Column.new "minimum_join_standing" ColumnType.Real
      , Column.new "send_char_termination_message" ColumnType.Boolean
      , Column.new "shares" ColumnType.Integer
      , Column.new "size" ColumnType.Text
      , Column.new "tax_rate" ColumnType.Real ]
  , foreign_keys := []
  , indexes := [ Index.on ["name_en"], Index.on ["ticker_name"] ]
  , child_tables := []
  , array_source := none }

def MAP_CONSTELLATIONS : TableSchema :=
  { name := "map_constellations"
  , source_file := "mapConstellations.jsonl"
  , columns :=
      [ Column.required "id" ColumnType.Integer
      , Column.new "name" ColumnType.Localized
      , Column.new "region_id" ColumnType.Integer
      , Column.new "faction_id" ColumnType.Integer
      , Column.new "center_x" ColumnType.Real
      , Column.new "center_y" ColumnType.Real
      , Column.new "center_z" ColumnType.Real
      , Column.new "max_x" ColumnType.Real
      , Column.new "max_y" ColumnType.Real
      , Column.new "max_z" ColumnType.Real
      , Column.new "min_x" ColumnType.Real
      , Column.new "min_y" ColumnType.Real
      , Column.new "min_z" ColumnType.Real
      , Column.new "radius" ColumnType.Real ]
  , foreign_keys :=
      [ ForeignKey.new "region_id" "map_regions" ]
  , indexes := [ Index.on ["region_id"], Index.on ["faction_id"], Index.on ["name_en"] ]
  , child_tables := []
  , array_source := none }

def TYPES : TableSchema :=
  { name := "types"
  , source_file := "types.jsonl"
  , columns :=
      [ Column.required "id" ColumnType.Integer
      , Column.new "name" ColumnType.Localized
      , Column.new "description" ColumnType.Localized
      , Column.new "group_id" ColumnType.Integer
      , Column.new "graphic_id" ColumnType.Integer
      , Column.new "icon_id" ColumnType.Integer
      , Column.new "market_group_id" ColumnType.Integer
      , Column.new "meta_group_id" ColumnType.Integer
      , Column.new "mass" ColumnType.Real
      , Column.new "volume" ColumnType.Real
      , Column.new "radius" ColumnType.Real
      , Column.new "packaged_volume" ColumnType.Real
      , Column.new "portion_size" ColumnType.Integer
      , Column.new "capacity" ColumnType.Real
      , Column.new "base_price" ColumnType.Real
      , Column.new "published" ColumnType.Boolean
      , Column.new "race_id" ColumnType.Integer
      , Column.new "faction_id" ColumnType.Integer
      , Column.new "sof_faction_name" ColumnType.Text
      , Column.new "sound_id" ColumnType.Integer
      , Column.new "variation_parent_type_id" ColumnType.Integer ]
  , foreign_keys :=
      [ ForeignKey.new "group_id" "groups"
      , ForeignKey.new "graphic_id" "graphics"
      , ForeignKey.new "icon_id" "icons"
      , ForeignKey.new "market_group_id" "market_groups"
      , ForeignKey.new "meta_group_id" "meta_groups"
      , ForeignKey.new "race_id" "races" ]
  , indexes := [ Index.on ["group_id"], Index.on ["graphic_id"], Index.on ["icon_id"], Index.on ["market_group_id"], Index.on ["meta_group_id"], Index.on ["race_id"], Index.on ["name_en"], Index.on ["published"] ]
  , child_tables := []
  , array_source := none }

def COMPRESSIBLE_TYPES : TableSchema :=
  { name := "compressible_types"
  , source_file := "compressibleTypes.jsonl"
  , columns :=
      [ Column.required "id" ColumnType.Integer
      , Column.new "compressed_type_id" ColumnType.Integer ]
  , foreign_keys :=
      [ ForeignKey.new "id" "types"
      , ForeignKey.new "compressed_type_id" "types" ]
  , indexes := [ Index.on ["compressed_type_id"] ]
  , child_tables := []
  , array_source := none }

def NPC_CHARACTERS : TableSchema :=
  { name := "npc_characters"
  , source_file := "npcCharacters.jsonl"
  , columns :=
      [ Column.required "id" ColumnType.Integer
      , Column.new "name" ColumnType.Localized
      , Column.new "bloodline_id" ColumnType.Integer
      , Column.new "corporation_id" ColumnType.Integer
      , Column.new "race_id" ColumnType.Integer
      , Column.new "location_id" ColumnType.Integer
      , Column.new "ceo" ColumnType.Boolean
      , Column.new "gender" ColumnType.Boolean
      , Column.new "start_date" ColumnType.Text
      , Column.new "unique_name" ColumnType.Boolean ]
  , foreign_keys :=
      [ ForeignKey.new "bloodline_id" "bloodlines"
      , ForeignKey.new "corporation_id" "npc_corporations"
      , ForeignKey.new "race_id" "races" ]
  , indexes := [ Index.on ["bloodline_id"], Index.on ["corporation_id"], Index.on ["race_id"], Index.on ["name_en"] ]
  , child_tables := []
  , array_source := none }

def SOVEREIGNTY_UPGRADES : TableSchema :=
  { name := "sovereignty_upgrades"
  , source_file := "sovereigntyUpgrades.jsonl"
  , columns :=
      [ Column.required "id" ColumnType.Integer
      , Column.new "fuel_type_id" ColumnType.Integer
      , Column.new "fuel_hourly_upkeep" ColumnType.Integer
      , Column.new "fuel_startup_cost" ColumnType.Integer
      , Column.new "mutually_exclusive_group" ColumnType.Text
      , Column.new "power_allocation" ColumnType.Integer
      , Column.new "workforce_allocation" ColumnType.Integer ]
  , foreign_keys :=
      [ ForeignKey.new "id" "types"
      , ForeignKey.new "fuel_type_id" "types" ]
  , indexes := [ Index.on ["fuel_type_id"] ]
  , child_tables := []
  , array_source := none }

def ANCESTRIES : TableSchema :=
  { name := "ancestries"
  , source_file := "ancestries.jsonl"
  , columns :=
      [ Column.required "id" ColumnType.Integer
      , Column.new "name" ColumnType.Localized
      , Column.new "description" ColumnType.Localized
      , Column.new "short_description" ColumnType.Localized
      , Column.new "bloodline_id" ColumnType.Integer
      , Column.new "charisma" ColumnType.Integer
      , Column.new "intelligence" ColumnType.Integer
      , Column.new "memory" ColumnType.Integer
      , Column.new "perception" ColumnType.Integer
      , Column.new "willpower" ColumnType.Integer
      , Column.new "icon_id" ColumnType.Integer ]
  , foreign_keys :=
      [ ForeignKey.new "bloodline_id" "bloodlines"
      , ForeignKey.new "icon_id" "icons" ]
  , indexes := [ Index.on ["bloodline_id"], Index.on ["icon_id"], Index.on ["name_en"] ]
  , child_tables := []
  , array_source := none }

def MAP_SOLAR_SYSTEMS : TableSchema :=
  { name := "map_solar_systems"
  , source_file := "mapSolarSystems.jsonl"
  , columns :=
      [ Column.required "id" ColumnType.Integer
      , Column.new "name" ColumnType.Localized
      , Column.new "constellation_id" ColumnType.Integer
      , Column.new "region_id" ColumnType.Integer
      , Column.new "star_id" ColumnType.Integer
      , Column.new "security_status" ColumnType.Real
      , Column.new "security_class" ColumnType.Text
      , Column.new "luminosity" ColumnType.Real
      , Column.new "radius" ColumnType.Real
      , Column.new "border" ColumnType.Boolean
      , Column.new "corridor" ColumnType.Boolean
      , Column.new "fringe" ColumnType.Boolean
      , Column.new "hub" ColumnType.Boolean
      , Column.new "international" ColumnType.Boolean
      , Column.new "regional" ColumnType.Boolean
      , Column.new "position_x" ColumnType.Real
      , Column.new "position_y" ColumnType.Real
      , Column.new "position_z" ColumnType.Real ]
  , foreign_keys :=
      [ ForeignKey.new "constellation_id" "map_constellations"
      , ForeignKey.new "region_id" "map_regions" ]
  , indexes := [ Index.on ["constellation_id"], Index.on ["star_id"], Index.on ["name_en"], Index.on ["security_status"] ]
  , child_tables := []
  , array_source := none }

def BLUEPRINTS : TableSchema :=
  { name := "blueprints"
  , source_file := "blueprints.jsonl"
  , columns :=
      [ Column.required "id" ColumnType.Integer
      , Column.new "blueprint_type_id" ColumnType.Integer
      , Column.new "max_production_limit" ColumnType.Integer
      , Column.new "copying_time" ColumnType.Integer
      , Column.new "manufacturing_time" ColumnType.Integer
      , Column.new "research_material_time" ColumnType.Integer
      , Column.new "research_time_time" ColumnType.Integer
      , Column.new "invention_time" ColumnType.Integer
      , Column.new "reaction_time" ColumnType.Integer ]
  , foreign_keys :=
      [ ForeignKey.new "blueprint_type_id" "types" ]
  , indexes := [ Index.on ["blueprint_type_id"] ]
  , child_tables := ["blueprint_materials", "blueprint_products", "blueprint_skills"]
  , array_source := none }

def SKIN_LICENSES : TableSchema :=
  { name := "skin_licenses"
  , source_file := "skinLicenses.jsonl"
  , columns :=
      [ Column.required "id" ColumnType.Integer
      , Column.new "license_type_id" ColumnType.Integer
      , Column.new "skin_id" ColumnType.Integer
      , Column.new "duration" ColumnType.Integer ]
  , foreign_keys :=
      [ ForeignKey.new "license_type_id" "types"
      , ForeignKey.new "skin_id" "skins" ]
  , indexes := [ Index.on ["skin_id"] ]
  , child_tables := []
  , array_source := none }

def CERTIFICATES : TableSchema :=
  { name := "certificates"
  , source_file := "certificates.jsonl"
  , columns :=
      [ Column.required "id" ColumnType.Integer
      , Column.new "name" ColumnType.Localized
      , Column.new "description" ColumnType.Localized
      , Column.new "group_id" ColumnType.Integer ]
  , foreign_keys :=
      [ ForeignKey.new "group_id" "groups" ]
  , indexes := [ Index.on ["name_en"] ]
  , child_tables := []
  , array_source := none }

def MAP_STARS : TableSchema :=
  { name := "map_stars"
  , source_file := "mapStars.jsonl"
  , columns :=
      [ Column.required "id" ColumnType.Integer
      , Column.new "solar_system_id" ColumnType.Integer
      , Column.new "type_id" ColumnType.Integer
      , Column.new "age" ColumnType.Real
      , Column.new "life" ColumnType.Real
      , Column.new "locked" ColumnType.Boolean
      , Column.new "luminosity" ColumnType.Real
      , Column.new "radius" ColumnType.Real
      , Column.new "spectral_class" ColumnType.Text
      , Column.new "temperature" ColumnType.Real ]
  , foreign_keys :=
      [ ForeignKey.new "solar_system_id" "map_solar_systems"
      , ForeignKey.new "type_id" "types" ]
  , indexes := [ Index.on ["solar_system_id"] ]
  , child_tables := []
  , array_source := none }

def MAP_PLANETS : TableSchema :=
  { name := "map_planets"
  , source_file := "mapPlanets.jsonl"
  , columns :=
      [ Column.required "id" ColumnType.Integer
      , Column.new "name" ColumnType.Localized
      , Column.new "solar_system_id" ColumnType.Integer
      , Column.new "type_id" ColumnType.Integer
      , Column.new "celestial_index" ColumnType.Integer
      , Column.new "orbit_id" ColumnType.Integer
      , Column.new "orbit_index" ColumnType.Integer
      , Column.new "radius" ColumnType.Real
      , Column.new "position_x" ColumnType.Real
      , Column.new "position_y" ColumnType.Real
      , Column.new "position_z" ColumnType.Real ]
  , foreign_keys :=
      [ ForeignKey.new "solar_system_id" "map_solar_systems"
      , ForeignKey.new "type_id" "types" ]
  , indexes := [ Index.on ["solar_system_id"], Index.on ["type_id"] ]
  , child_tables := []
  , array_source := none }

def MAP_MOONS : TableSchema :=
  { name := "map_moons"
  , source_file := "mapMoons.jsonl"
  , columns :=
      [ Column.required "id" ColumnType.Integer
      , Column.new "solar_system_id" ColumnType.Integer
      , Column.new "planet_id" ColumnType.Integer
      , Column.new "type_id" ColumnType.Integer
      , Column.new "celestial_index" ColumnType.Integer
      , Column.new "orbit_id" ColumnType.Integer
      , Column.new "orbit_index" ColumnType.Integer
      , Column.new "radius" ColumnType.Real
      , Column.new "position_x" ColumnType.Real
      , Column.new "position_y" ColumnType.Real
      , Column.new "position_z" ColumnType.Real ]
  , foreign_keys :=
      [ ForeignKey.new "solar_system_id" "map_solar_systems"
      , ForeignKey.new "planet_id" "map_planets"
      , ForeignKey.new "type_id" "types" ]
  , indexes := [ Index.on ["planet_id"], Index.on ["type_id"] ]
  , child_tables := []
  , array_source := none }

def MAP_ASTEROID_BELTS : TableSchema :=
  { name := "map_asteroid_belts"
  , source_file := "mapAsteroidBelts.jsonl"
  , columns :=
      [ Column.required "id" ColumnType.Integer
      , Column.new "solar_system_id" ColumnType.Integer
      , Column.new "planet_id" ColumnType.Integer
      , Column.new "type_id" ColumnType.Integer
      , Column.new "celestial_index" ColumnType.Integer
      , Column.new "orbit_id" ColumnType.Integer
      , Column.new "orbit_index" ColumnType.Integer
      , Column.new "position_x" ColumnType.Real
      , Column.new "position_y" ColumnType.Real
      , Column.new "position_z" ColumnType.Real ]
  , foreign_keys :=
      [ ForeignKey.new "solar_system_id" "map_solar_systems"
      , ForeignKey.new "planet_id" "map_planets"
      , ForeignKey.new "type_id" "types" ]
  , indexes := [ Index.on ["planet_id"] ]
  , child_tables := []
  , array_source := none }

def MAP_STARGATES : TableSchema :=
  { name := "map_stargates"
  , source_file := "mapStargates.jsonl"
  , columns :=
      [ Column.required "id" ColumnType.Integer
      , Column.new "solar_system_id" ColumnType.Integer
      , Column.new "type_id" ColumnType.Integer
      , Column.new "destination_stargate_id" ColumnType.Integer
      , Column.new "destination_solar_system_id" ColumnType.Integer
      , Column.new "position_x" ColumnType.Real
      , Column.new "position_y" ColumnType.Real
      , Column.new "position_z" ColumnType.Real ]
  , foreign_keys :=
      [ ForeignKey.new "solar_system_id" "map_solar_systems"
      , ForeignKey.new "type_id" "types"
      , ForeignKey.new "destination_solar_system_id" "map_solar_systems" ]
  , indexes := [ Index.on ["solar_system_id"], Index.on ["destination_stargate_id"], Index.on ["type_id"] ]
  , child_tables := []
  , array_source := none }

def NPC_STATIONS : TableSchema :=
  { name := "npc_stations"
  , source_file := "npcStations.jsonl"
  , columns :=
      [ Column.required "id" ColumnType.Integer
      , Column.new "solar_system_id" ColumnType.Integer
      , Column.new "type_id" ColumnType.Integer
      , Column.new "owner_id" ColumnType.Integer
      , Column.new "operation_id" ColumnType.Integer
      , Column.new "orbit_id" ColumnType.Integer
      , Column.new "celestial_index" ColumnType.Integer
      , Column.new "orbit_index" ColumnType.Integer
      , Column.new "reprocessing_efficiency" ColumnType.Real
      , Column.new "reprocessing_hangar_flag" ColumnType.Integer
      , Column.new "reprocessing_stations_take" ColumnType.Real
      , Column.new "use_operation_name" ColumnType.Boolean
      , Column.new "position_x" ColumnType.Real
      , Column.new "position_y" ColumnType.Real
      , Column.new "position_z" ColumnType.Real ]
  , foreign_keys :=
      [ ForeignKey.new "solar_system_id" "map_solar_systems"
      , ForeignKey.new "type_id" "types"
      , ForeignKey.new "owner_id" "npc_corporations"
      , ForeignKey.new "operation_id" "station_operations" ]
  , indexes := [ Index.on ["solar_system_id"], Index.on ["operation_id"], Index.on ["type_id"], Index.on ["owner_id"] ]
  , child_tables := []
  , array_source := none }

def AGENTS_IN_SPACE : TableSchema :=
  { name := "agents_in_space"
  , source_file := "agentsInSpace.jsonl"
  , columns :=
      [ Column.required "id" ColumnType.Integer
      , Column.new "dungeon_id" ColumnType.Integer
      , Column.new "solar_system_id" ColumnType.Integer
      , Column.new "spawn_point_id" ColumnType.Integer
      , Column.new "type_id" ColumnType.Integer ]
  , foreign_keys :=
      [ ForeignKey.new "solar_system_id" "map_solar_systems"
      , ForeignKey.new "type_id" "types" ]
  , indexes := [ Index.on ["solar_system_id"], Index.on ["type_id"] ]
  , child_tables := []
  , array_source := none }

def TYPE_DOGMA_ATTRIBUTES : TableSchema :=
  { name := "type_dogma_attributes"
  , source_file := "typeDogma.jsonl"
  , columns :=
      [ Column.required "type_id" ColumnType.Integer
      , Column.required "attribute_id" ColumnType.Integer
      , Column.required "value" ColumnType.Real ]
  , foreign_keys :=
      [ ForeignKey.new "type_id" "types"
      , ForeignKey.new "attribute_id" "dogma_attributes" ]
  , indexes := [ Index.on ["type_id"], Index.on ["attribute_id"] ]
  , child_tables := []
  , array_source := some (ArraySource.Simple "dogmaAttributes" "type_id") }

def TYPE_DOGMA_EFFECTS : TableSchema :=
  { name := "type_dogma_effects"
  , source_file := "typeDogma.jsonl"
  , columns :=
      [ Column.required "type_id" ColumnType.Integer
      , Column.required "effect_id" ColumnType.Integer
      , Column.new "is_default" ColumnType.Boolean ]
  , foreign_keys :=
      [ ForeignKey.new "type_id" "types"
      , ForeignKey.new "effect_id" "dogma_effects" ]
  , indexes := [ Index.on ["type_id"], Index.on ["effect_id"] ]
  , child_tables := []
  , array_source := some (ArraySource.Simple "dogmaEffects" "type_id") }

def TYPE_MATERIALS : TableSchema :=
  { name := "type_materials"
  , source_file := "typeMaterials.jsonl"
  , columns :=
      [ Column.required "type_id" ColumnType.Integer
      , Column.required "material_type_id" ColumnType.Integer
      , Column.required "quantity" ColumnType.Integer ]
  , foreign_keys :=
      [ ForeignKey.new "type_id" "types"
      , ForeignKey.new "material_type_id" "types" ]
  , indexes := [ Index.on ["type_id"], Index.on ["material_type_id"] ]
  , child_tables := []
  , array_source := some (ArraySource.Simple "materials" "type_id") }

def BLUEPRINT_MATERIALS : TableSchema :=
  { name := "blueprint_materials"
  , source_file := "blueprints.jsonl"
  , columns :=
      [ Column.required "blueprint_id" ColumnType.Integer
      , Column.required "activity" ColumnType.Text
      , Column.required "type_id" ColumnType.Integer
      , Column.required "quantity" ColumnType.Integer ]
  , foreign_keys :=
      [ ForeignKey.new "blueprint_id" "blueprints"
      , ForeignKey.new "type_id" "types" ]
  , indexes := [ Index.on ["blueprint_id"], Index.on ["type_id"], Index.on ["activity"] ]
  , child_tables := []
  , array_source := some (ArraySource.BlueprintActivity "activity" "materials") }

def BLUEPRINT_PRODUCTS : TableSchema :=
  { name := "blueprint_products"
  , source_file := "blueprints.jsonl"
  , columns :=
      [ Column.required "blueprint_id" ColumnType.Integer
      , Column.required "activity" ColumnType.Text
      , Column.required "type_id" ColumnType.Integer
      , Column.required "quantity" ColumnType.Integer
      , Column.new "probability" ColumnType.Real ]
  , foreign_keys :=
      [ ForeignKey.new "blueprint_id" "blueprints"
      , ForeignKey.new "type_id" "types" ]
  , indexes := [ Index.on ["blueprint_id"], Index.on ["type_id"], Index.on ["activity"] ]
  , child_tables := []
  , array_source := some (ArraySource.BlueprintActivity "activity" "products") }

def BLUEPRINT_SKILLS : TableSchema :=
  { name := "blueprint_skills"
  , source_file := "blueprints.jsonl"
  , columns :=
      [ Column.required "blueprint_id" ColumnType.Integer
      , Column.required "activity" ColumnType.Text
      , Column.required "type_id" ColumnType.Integer
      , Column.required "level" ColumnType.Integer ]
  , foreign_keys :=
      [ ForeignKey.new "blueprint_id" "blueprints"
      , ForeignKey.new "type_id" "types" ]
  , indexes := [ Index.on ["blueprint_id"], Index.on ["type_id"], Index.on ["activity"] ]
  , child_tables := []
  , array_source := some (ArraySource.BlueprintActivity "activity" "skills") }

def CLONE_GRADE_SKILLS : TableSchema :=
  { name := "clone_grade_skills"
  , source_file := "cloneGrades.jsonl"
  , columns :=
      [ Column.required "clone_grade_id" ColumnType.Integer
      , Column.required "type_id" ColumnType.Integer
      , Column.required "level" ColumnType.Integer ]
  , foreign_keys :=
      [ ForeignKey.new "clone_grade_id" "clone_grades"
      , ForeignKey.new "type_id" "types" ]
  , indexes := [ Index.on ["clone_grade_id"], Index.on ["type_id"] ]
  , child_tables := []
  , array_source := some (ArraySource.Simple "skills" "clone_grade_id") }

def CONTRABAND_TYPE_FACTIONS : TableSchema :=
  { name := "contraband_type_factions"
  , source_file := "contrabandTypes.jsonl"
  , columns :=
      [ Column.required "type_id" ColumnType.Integer
      , (Column.required "faction_id" ColumnType.Integer).json "_key"
      , Column.new "attack_min_sec" ColumnType.Real
      , Column.new "confiscate_min_sec" ColumnType.Real
      , Column.new "fine_by_value" ColumnType.Real
      , Column.new "standing_loss" ColumnType.Real ]
  , foreign_keys :=
      [ ForeignKey.new "type_id" "types"
      , ForeignKey.new "faction_id" "factions" ]
  , indexes := [ Index.on ["type_id"], Index.on ["faction_id"] ]
  , child_tables := []
  , array_source := some (ArraySource.Simple "factions" "type_id") }

def CONTROL_TOWER_RESOURCES : TableSchema :=
  { name := "control_tower_resources"
  , source_file := "controlTowerResources.jsonl"
  , columns :=
      [ Column.required "type_id" ColumnType.Integer
      , Column.required "resource_type_id" ColumnType.Integer
      , Column.new "purpose" ColumnType.Integer
      , Column.new "quantity" ColumnType.Integer ]
  , foreign_keys :=
      [ ForeignKey.new "type_id" "types"
      , ForeignKey.new "resource_type_id" "types" ]
  , indexes := [ Index.on ["type_id"], Index.on ["resource_type_id"] ]
  , child_tables := []
  , array_source := some (ArraySource.Simple "resources" "type_id") }

def DYNAMIC_ITEM_ATTRIBUTES : TableSchema :=
  { name := "dynamic_item_attributes"
  , source_file := "dynamicItemAttributes.jsonl"
  , columns :=
      [ Column.required "type_id" ColumnType.Integer
      , (Column.required "attribute_id" ColumnType.Integer).json "_key"
      , Column.new "min" ColumnType.Real
      , Column.new "max" ColumnType.Real ]
  , foreign_keys :=
      [ ForeignKey.new "type_id" "types"
      , ForeignKey.new "attribute_id" "dogma_attributes" ]
  , indexes := [ Index.on ["type_id"], Index.on ["attribute_id"] ]
  , child_tables := []
  , array_source := some (ArraySource.Simple "attributeIDs" "type_id") }

def PLANET_SCHEMATIC_PINS : TableSchema :=
  { name := "planet_schematic_pins"
  , source_file := "planetSchematics.jsonl"
  , columns :=
      [ Column.required "schematic_id" ColumnType.Integer
      , Column.required "pin_type_id" ColumnType.Integer ]
  , foreign_keys :=
      [ ForeignKey.new "schematic_id" "planet_schematics"
      , ForeignKey.new "pin_type_id" "types" ]
  , indexes := [ Index.on ["schematic_id"] ]
  , child_tables := []
  , array_source := some (ArraySource.SimpleIntArray "pins" "schematic_id" "pin_type_id") }

def PLANET_SCHEMATIC_TYPES : TableSchema :=
  { name := "planet_schematic_types"
  , source_file := "planetSchematics.jsonl"
  , columns :=
      [ Column.required "schematic_id" ColumnType.Integer
      , (Column.required "type_id" ColumnType.Integer).json "_key"
      , Column.new "is_input" ColumnType.Boolean
      , Column.new "quantity" ColumnType.Integer ]
  , foreign_keys :=
      [ ForeignKey.new "schematic_id" "planet_schematics"
      , ForeignKey.new "type_id" "types" ]
  , indexes := [ Index.on ["schematic_id"], Index.on ["type_id"] ]
  , child_tables := []
  , array_source := some (ArraySource.Simple "types" "schematic_id") }

def TYPE_ROLE_BONUSES : TableSchema :=
  { name := "type_role_bonuses"
  , source_file := "typeBonus.jsonl"
  , columns :=
      [ Column.required "type_id" ColumnType.Integer
      , Column.new "bonus" ColumnType.Real
      , Column.new "bonus_text" ColumnType.Localized
      , Column.new "importance" ColumnType.Integer
      , Column.new "unit_id" ColumnType.Integer ]
  , foreign_keys :=
      [ ForeignKey.new "type_id" "types"
      , ForeignKey.new "unit_id" "dogma_units" ]
  , indexes := [ Index.on ["type_id"] ]
  , child_tables := []
  , array_source := some (ArraySource.Simple "roleBonuses" "type_id") }

def TYPE_TRAIT_BONUSES : TableSchema :=
  { name := "type_trait_bonuses"
  , source_file := "typeBonus.jsonl"
  , columns :=
      [ Column.required "type_id" ColumnType.Integer
      , Column.required "skill_type_id" ColumnType.Integer
      , Column.new "bonus" ColumnType.Real
      , Column.new "bonus_text" ColumnType.Localized
      , Column.new "importance" ColumnType.Integer
      , Column.new "is_positive" ColumnType.Boolean
      , Column.new "unit_id" ColumnType.Integer ]
  , foreign_keys :=
      [ ForeignKey.new "type_id" "types"
      , ForeignKey.new "skill_type_id" "types"
      , ForeignKey.new "unit_id" "dogma_units" ]
  , indexes := [ Index.on ["type_id"], Index.on ["skill_type_id"] ]
  , child_tables := []
  , array_source := some (ArraySource.NestedKeyValue "types" "type_id" "skill_type_id") }

def TYPE_MASTERIES : TableSchema :=
  { name := "type_masteries"
  , source_file := "masteries.jsonl"
  , columns :=
      [ Column.required "type_id" ColumnType.Integer
      , Column.required "mastery_level" ColumnType.Integer
      , Column.required "certificate_id" ColumnType.Integer ]
  , foreign_keys :=
      [ ForeignKey.new "type_id" "types"
      , ForeignKey.new "certificate_id" "certificates" ]
  , indexes := [ Index.on ["type_id"] ]
  , child_tables := []
  , array_source := some (ArraySource.DoubleNested "type_id" "mastery_level") }

def DBUFF_COLLECTIONS : TableSchema :=
  { name := "dbuff_collections"
  , source_file := "dbuffCollections.jsonl"
  , columns :=
      [ Column.required "id" ColumnType.Integer
      , Column.new "aggregate_mode" ColumnType.Text
      , Column.new "developer_description" ColumnType.Text ]
  , foreign_keys := []
  , indexes := []
  , child_tables := ["dbuff_item_modifiers", "dbuff_location_modifiers", "dbuff_location_group_modifiers"]
  , array_source := none }

def DBUFF_ITEM_MODIFIERS : TableSchema :=
  { name := "dbuff_item_modifiers"
  , source_file := "dbuffCollections.jsonl"
  , columns :=
      [ Column.required "collection_id" ColumnType.Integer
      , (Column.required "dogma_attribute_id" ColumnType.Integer).json "dogmaAttributeID" ]
  , foreign_keys :=
      [ ForeignKey.new "collection_id" "dbuff_collections"
      , ForeignKey.new "dogma_attribute_id" "dogma_attributes" ]
  , indexes := [ Index.on ["collection_id"], Index.on ["dogma_attribute_id"] ]
  , child_tables := []
  , array_source := some (ArraySource.Simple "itemModifiers" "collection_id") }

def DBUFF_LOCATION_MODIFIERS : TableSchema :=
  { name := "dbuff_location_modifiers"
  , source_file := "dbuffCollections.jsonl"
  , columns :=
      [ Column.required "collection_id" ColumnType.Integer
      , (Column.required "dogma_attribute_id" ColumnType.Integer).json "dogmaAttributeID" ]
  , foreign_keys :=
      [ ForeignKey.new "collection_id" "dbuff_collections"
      , ForeignKey.new "dogma_attribute_id" "dogma_attributes" ]
  , indexes := [ Index.on ["collection_id"], Index.on ["dogma_attribute_id"] ]
  , child_tables := []
  , array_source := some (ArraySource.Simple "locationModifiers" "collection_id") }

def DBUFF_LOCATION_GROUP_MODIFIERS : TableSchema :=
  { name := "dbuff_location_group_modifiers"
  , source_file := "dbuffCollections.jsonl"
  , columns :=
      [ Column.required "collection_id" ColumnType.Integer
      , (Column.required "dogma_attribute_id" ColumnType.Integer).json "dogmaAttributeID"
      , Column.required "group_id" ColumnType.Integer ]
  , foreign_keys :=
      [ ForeignKey.new "collection_id" "dbuff_collections"
      , ForeignKey.new "dogma_attribute_id" "dogma_attributes"
      , ForeignKey.new "group_id" "groups" ]
  , indexes := [ Index.on ["collection_id"], Index.on ["dogma_attribute_id"], Index.on ["group_id"] ]
  , child_tables := []
  , array_source := some (ArraySource.Simple "locationGroupModifiers" "collection_id") }

def FREELANCE_JOB_SCHEMAS : TableSchema :=
  { name := "freelance_job_schemas"
  , source_file := "freelanceJobSchemas.jsonl"
  , columns :=
      [ Column.required "id" ColumnType.Integer ]
  , foreign_keys := []
  , indexes := []
  , child_tables := []
  , array_source := none }

/-- All table schemas in dependency order (`ALL_TABLES` in tables.rs). -/
def ALL_TABLES : List TableSchema :=
  [ CATEGORIES
  , DOGMA_ATTRIBUTE_CATEGORIES
  , DOGMA_UNITS
  , ICONS
  , GRAPHICS
  , AGENT_TYPES
  , STATION_SERVICES
  , CORPORATION_ACTIVITIES
  , META_GROUPS
  , CHARACTER_ATTRIBUTES
  , TRANSLATION_LANGUAGES
  , SKIN_MATERIALS
  , LANDMARKS
  , NPC_CORPORATION_DIVISIONS
  , PLANET_RESOURCES
  , CLONE_GRADES
  , PLANET_SCHEMATICS
  , DBUFF_COLLECTIONS
  , FREELANCE_JOB_SCHEMAS
  , RACES
  , GROUPS
  , DOGMA_ATTRIBUTES
  , DOGMA_EFFECTS
  , MAP_REGIONS
  , MARKET_GROUPS
  , STATION_OPERATIONS
  , SKINS
  , BLOODLINES
  , FACTIONS
  , NPC_CORPORATIONS
  , MAP_CONSTELLATIONS
  , TYPES
  , SOVEREIGNTY_UPGRADES
  , ANCESTRIES
  , MAP_SOLAR_SYSTEMS
  , BLUEPRINTS
  , SKIN_LICENSES
  , CERTIFICATES
  , COMPRESSIBLE_TYPES
  , NPC_CHARACTERS
  , MAP_STARS
  , MAP_PLANETS
  , MAP_MOONS
  , MAP_ASTEROID_BELTS
  , MAP_STARGATES
  , NPC_STATIONS
  , AGENTS_IN_SPACE
  , TYPE_DOGMA_ATTRIBUTES
  , TYPE_DOGMA_EFFECTS
  , TYPE_MATERIALS
  , BLUEPRINT_MATERIALS
  , BLUEPRINT_PRODUCTS
  , BLUEPRINT_SKILLS
  , CLONE_GRADE_SKILLS
  , CONTRABAND_TYPE_FACTIONS
  , CONTROL_TOWER_RESOURCES
  , DYNAMIC_ITEM_ATTRIBUTES
  , PLANET_SCHEMATIC_PINS
  , PLANET_SCHEMATIC_TYPES
  , TYPE_ROLE_BONUSES
  , TYPE_TRAIT_BONUSES
  , TYPE_MASTERIES
  , DBUFF_ITEM_MODIFIERS
  , DBUFF_LOCATION_MODIFIERS
  , DBUFF_LOCATION_GROUP_MODIFIERS ]

/-- `get_table`: look up a table schema by name. -/
def get_table (name : String) : Option TableSchema :=
  ALL_TABLES.find? (fun t => t.name == name)

/-- `table_names`: all table names. -/
def table_names : List String :=
  ALL_TABLES.map (fun t => t.name)


/-! ## JSON value model (serde_json::Value) -/

/-- A JSON number. serde_json distinguishes integer-kind numbers from
float-kind numbers (`as_i64` succeeds only on the former, `as_f64` on both).
Float payloads are modelled as rationals. -/
inductive JsonNum where
  | int (i : Int)
  | float (q : ℚ)
  deriving DecidableEq, Repr

/-- `serde_json::Value`. Objects are association lists of fields; serde's
`Map` (a BTreeMap) keeps keys sorted and unique, which is only observable in
iteration order and serialization. -/
inductive Json where
  | Null
  | Bool (b : Bool)
  | Num (n : JsonNum)
  | Str (s : String)
  | Arr (elems : List Json)
  | Obj (fields : List (String × Json))

/-- Field lookup in an object's field list (`Map::get`). -/
def objGet (fields : List (String × Json)) (key : String) : Option Json :=
  (fields.find? (fun p => p.1 == key)).map (fun p => p.2)

/-- `Value::get(key)`: field lookup on objects, `None` on any other value. -/
def getField : Json → String → Option Json
  | Json.Obj fields, key => objGet fields key
  | _, _ => none

/-- `Value::as_i64`: succeeds only on integer-kind numbers. -/
def asI64 : Json → Option Int
  | Json.Num (JsonNum.int i) => some i
  | _ => none

/-- `Value::as_f64`: succeeds on any JSON number. -/
def asF64 : Json → Option ℚ
  | Json.Num (JsonNum.int i) => some (i : ℚ)
  | Json.Num (JsonNum.float q) => some q
  | _ => none

/-- `Value::as_str`. -/
def asStr : Json → Option String
  | Json.Str s => some s
  | _ => none

/-- `Value::as_bool`. -/
def asBool : Json → Option Bool
  | Json.Bool b => some b
  | _ => none

/-- `Value::as_object` (the field list). -/
def asObject : Json → Option (List (String × Json))
  | Json.Obj fields => some fields
  | _ => none

/-- One lowercase hex digit. -/
def hexDigit (n : Nat) : Char :=
  if n < 10 then Char.ofNat (48 + n) else Char.ofNat (87 + n)

/-- JSON string escaping as in serde_json. -/
def escapeChar (c : Char) : String :=
  if c = '"' then "\\\""
  else if c = '\\' then "\\\\"
  else if c = '\x08' then "\\b"
  else if c = '\x09' then "\\t"
  else if c = '\x0a' then "\\n"
  else if c = '\x0c' then "\\f"
  else if c = '\x0d' then "\\r"
  else if c.toNat < 32 then
    "\\u00" ++ String.singleton (hexDigit (c.toNat / 16)) ++ String.singleton (hexDigit (c.toNat % 16))
  else String.singleton c

/-- Serialize a JSON string literal. -/
def serializeString (s : String) : String :=
  "\"" ++ String.join (s.toList.map escapeChar) ++ "\""

/-- Number rendering. Integer-kind numbers print exactly as serde prints an
i64. Float rendering (serde uses ryu shortest-form) is modelled only
approximately; no theorem below depends on float formatting. -/
def serializeNum : JsonNum → String
  | JsonNum.int i => toString i
  | JsonNum.float q => if q.den = 1 then toString q.num ++ ".0" else toString q

/-- Insert into a key-sorted association list. -/
def insertSorted {α : Type} (p : String × α) : List (String × α) → List (String × α)
  | [] => [p]
  | q :: rest => if p.1 < q.1 then p :: q :: rest else q :: insertSorted p rest

/-- Sort an association list by key (the order a BTreeMap iterates in). -/
def sortByKey {α : Type} (l : List (String × α)) : List (String × α) :=
  l.foldr insertSorted []

mutual
/-- `Value::to_string()`: compact serialization; object keys are emitted in
sorted order (serde's BTreeMap). -/
def serialize : Json → String
  | Json.Null => "null"
  | Json.Bool b => if b then "true" else "false"
  | Json.Num n => serializeNum n
  | Json.Str s => serializeString s
  | Json.Arr xs => "[" ++ String.intercalate "," (serializeList xs) ++ "]"
  | Json.Obj fs =>
      "\x7b" ++ String.intercalate ","
        ((sortByKey (serializeFields fs)).map (fun kv => serializeString kv.1 ++ ":" ++ kv.2))
      ++ "\x7d"

/-- Serialize the elements of an array. -/
def serializeList : List Json → List String
  | [] => []
  | x :: xs => serialize x :: serializeList xs

/-- Serialize the values of an object's fields. -/
def serializeFields : List (String × Json) → List (String × String)
  | [] => []
  | (k, v) :: rest => (k, serialize v) :: serializeFields rest
end

/-! ## Record parser (src/parser/record.rs) -/

/-- `SqlValue` (record.rs): Null / Integer(i64) / Real(f64) / Text. f64
payloads are modelled as rationals. -/
inductive SqlValue where
  | Null
  | Integer (i : Int)
  | Real (q : ℚ)
  | Text (s : String)
  deriving DecidableEq, Repr

/-- `ParsedRow.values`: a HashMap from output column name to value, modelled
as an association list maintained by `rowInsert`. -/
abbrev ParsedRow := List (String × SqlValue)

/-- `HashMap::insert`: replace the value at the key if present, else append. -/
def rowInsert (row : ParsedRow) (k : String) (v : SqlValue) : ParsedRow :=
  if row.any (fun p => p.1 == k) then
    row.map (fun p => if p.1 == k then (k, v) else p)
  else
    row ++ [(k, v)]

/-- `HashMap::get` on a parsed row. -/
def rowGet (row : ParsedRow) (k : String) : Option SqlValue :=
  (row.find? (fun p => p.1 == k)).map (fun p => p.2)

/-- The keys of a parsed row. -/
def rowKeys (row : ParsedRow) : List String :=
  row.map (fun p => p.1)

/-- Rust `char::to_ascii_uppercase`. -/
def asciiUpper (c : Char) : Char :=
  if 97 ≤ c.toNat ∧ c.toNat ≤ 122 then Char.ofNat (c.toNat - 32) else c

/-- `to_camel_case_inner` (record.rs): fold with a capitalize-next flag. -/
def to_camel_case_inner (s : String) : String :=
  (s.toList.foldl
    (fun (acc : String × Bool) c =>
      if c = '_' then (acc.1, true)
      else if acc.2 then (acc.1.push (asciiUpper c), false)
      else (acc.1.push c, false))
    ("", false)).1

/-- `to_camel_case` (record.rs): snake_case to camelCase with the special
rule that an `_id` suffix becomes `ID` (Rust `strip_suffix("_id")`, written
here as a pattern match on the reversed character list so that it reduces
definitionally). -/
def to_camel_case (s : String) : String :=
  match s.data.reverse with
  | 'd' :: 'i' :: '_' :: rest => to_camel_case_inner (String.mk rest.reverse) ++ "ID"
  | _ => to_camel_case_inner s

/-- `extract_value` (record.rs): coerce the JSON value at `key` to the
column type. -/
def extract_value (json : Json) (key : String) (col_type : ColumnType) : SqlValue :=
  match getField json key with
  | none => SqlValue.Null
  | some Json.Null => SqlValue.Null
  | some v =>
    match col_type with
    | ColumnType.Integer => ((asI64 v).map SqlValue.Integer).getD SqlValue.Null
    | ColumnType.Real => ((asF64 v).map SqlValue.Real).getD SqlValue.Null
    | ColumnType.Text => ((asStr v).map SqlValue.Text).getD SqlValue.Null
    | ColumnType.Boolean =>
        ((asBool v).map (fun b => SqlValue.Integer (if b then 1 else 0))).getD SqlValue.Null
    | ColumnType.Json => SqlValue.Text (serialize v)
    | ColumnType.Localized => SqlValue.Null

/-- The value `parse_record` stores for language `lang` of a Localized
column named `name`: look up the camelCase source field as an object, then
the language key as a string, else Null. -/
def localizedValue (json : Json) (name lang : String) : SqlValue :=
  match (getField json (to_camel_case name)).bind asObject with
  | some obj =>
    match (objGet obj lang).bind asStr with
    | some s => SqlValue.Text s
    | none => SqlValue.Null
  | none => SqlValue.Null

/-- One iteration of the column loop of `parse_record` (record.rs). -/
def applyColumn (json : Json) (values : ParsedRow) (col : Column) : ParsedRow :=
  match col.col_type with
  | ColumnType.Localized =>
    match (getField json (to_camel_case col.name)).bind asObject with
    | some obj =>
        LANGUAGES.foldl
          (fun values lang =>
            rowInsert values (col.name ++ "_" ++ lang)
              (match (objGet obj lang).bind asStr with
               | some s => SqlValue.Text s
               | none => SqlValue.Null))
          values
    | none =>
        LANGUAGES.foldl
          (fun values lang => rowInsert values (col.name ++ "_" ++ lang) SqlValue.Null)
          values
  | _ =>
    rowInsert values col.name
      (extract_value json (if col.name == "id" then "_key" else to_camel_case col.name)
        col.col_type)

/-- The row built by the column loop of `parse_record` (record.rs) for one
successfully parsed line. -/
def parseRecordVal (json : Json) (schema : TableSchema) : ParsedRow :=
  schema.columns.foldl (applyColumn json) []

/-- `parse_record` (record.rs): the `&str` line is modelled post-JSON-parse,
`none` being a line `serde_json::from_str` rejects and `some j` a
successfully parsed one. -/
def parse_record (line : Option Json) (schema : TableSchema) : Except String ParsedRow :=
  match line with
  | none => Except.error "Failed to parse JSON"
  | some json => Except.ok (parseRecordVal json schema)

/-- `parse_simple_array` (record.rs). -/
def parse_simple_array (json : Json) (schema : TableSchema)
    (array_field parent_id_column : String) : Except String (List ParsedRow) :=
  match (getField json "_key").bind asI64 with
  | none => Except.error "Missing _key in JSON"
  | some parent_id =>
    Except.ok
      (match getField json array_field with
       | some (Json.Arr array) =>
           array.map (fun item =>
             schema.columns.foldl
               (fun values col =>
                 if col.name == parent_id_column then values
                 else
                   let json_key := col.json_field.getD (to_camel_case col.name)
                   rowInsert values col.name (extract_value item json_key col.col_type))
               [(parent_id_column, SqlValue.Integer parent_id)])
       | _ => [])

/-- `parse_blueprint_activity` (record.rs). The activities map is a BTreeMap,
so activities are iterated in sorted key order. -/
def parse_blueprint_activity (json : Json) (schema : TableSchema)
    (activity_column array_field : String) : Except String (List ParsedRow) :=
  match ((getField json "blueprintTypeID").orElse (fun _ => getField json "_key")).bind asI64 with
  | none => Except.error "Missing blueprintTypeID or _key in JSON"
  | some blueprint_id =>
    Except.ok
      (match getField json "activities" with
       | some (Json.Obj activities) =>
           (sortByKey activities).flatMap (fun act =>
             match getField act.2 array_field with
             | some (Json.Arr array) =>
                 array.map (fun item =>
                   schema.columns.foldl
                     (fun values col =>
                       if col.name == "blueprint_id" || col.name == activity_column then values
                       else
                         rowInsert values col.name
                           (extract_value item (to_camel_case col.name) col.col_type))
                     (rowInsert [("blueprint_id", SqlValue.Integer blueprint_id)]
                       activity_column (SqlValue.Text act.1)))
             | _ => [])
       | _ => [])

/-- `parse_simple_int_array` (record.rs). -/
def parse_simple_int_array (json : Json)
    (array_field parent_id_column value_column : String) : Except String (List ParsedRow) :=
  match (getField json "_key").bind asI64 with
  | none => Except.error "Missing _key in JSON"
  | some parent_id =>
    Except.ok
      (match getField json array_field with
       | some (Json.Arr array) =>
           array.filterMap (fun item =>
             (asI64 item).map (fun value =>
               rowInsert [(parent_id_column, SqlValue.Integer parent_id)]
                 value_column (SqlValue.Integer value)))
       | _ => [])

/-- `parse_nested_key_value` (record.rs). -/
def parse_nested_key_value (json : Json) (schema : TableSchema)
    (array_field parent_id_column nested_key_column : String) : Except String (List ParsedRow) :=
  match (getField json "_key").bind asI64 with
  | none => Except.error "Missing _key in JSON"
  | some parent_id =>
    Except.ok
      (match getField json array_field with
       | some (Json.Arr outer_array) =>
           outer_array.flatMap (fun outer_item =>
             match (getField outer_item "_key").bind asI64 with
             | none => []
             | some nested_key =>
               match getField outer_item "_value" with
               | some (Json.Arr inner_array) =>
                   inner_array.map (fun item =>
                     schema.columns.foldl
                       (fun values col =>
                         if col.name == parent_id_column || col.name == nested_key_column then
                           values
                         else
                           rowInsert values col.name
                             (extract_value item (to_camel_case col.name) col.col_type))
                       (rowInsert [(parent_id_column, SqlValue.Integer parent_id)]
                         nested_key_column (SqlValue.Integer nested_key)))
               | _ => [])
       | _ => [])

/-- `parse_double_nested` (record.rs). -/
def parse_double_nested (json : Json) (schema : TableSchema)
    (parent_id_column level_key_column : String) : Except String (List ParsedRow) :=
  match (getField json "_key").bind asI64 with
  | none => Except.error "Missing _key in JSON"
  | some parent_id =>
    Except.ok
      (match getField json "_value" with
       | some (Json.Arr outer_array) =>
           outer_array.flatMap (fun outer_item =>
             match (getField outer_item "_key").bind asI64 with
             | none => []
             | some level_key =>
               match getField outer_item "_value" with
               | some (Json.Arr inner_array) =>
                   inner_array.map (fun item =>
                     schema.columns.foldl
                       (fun values col =>
                         if col.name == parent_id_column || col.name == level_key_column then
                           values
                         else
                           let value := match asI64 item with
                             | some i => SqlValue.Integer i
                             | none => extract_value item (to_camel_case col.name) col.col_type
                           rowInsert values col.name value)
                       (rowInsert [(parent_id_column, SqlValue.Integer parent_id)]
                         level_key_column (SqlValue.Integer level_key)))
               | _ => [])
       | _ => [])

/-- `parse_junction_records` (record.rs). -/
def parse_junction_records (line : Option Json) (schema : TableSchema) :
    Except String (List ParsedRow) :=
  match line with
  | none => Except.error "Failed to parse JSON"
  | some json =>
    match schema.array_source with
    | none => Except.error ("Table " ++ schema.name ++ " has no array_source")
    | some (ArraySource.Simple array_field parent_id_column) =>
        parse_simple_array json schema array_field parent_id_column
    | some (ArraySource.SimpleIntArray array_field parent_id_column value_column) =>
        parse_simple_int_array json array_field parent_id_column value_column
    | some (ArraySource.BlueprintActivity activity_column array_field) =>
        parse_blueprint_activity json schema activity_column array_field
    | some (ArraySource.NestedKeyValue array_field parent_id_column nested_key_column) =>
        parse_nested_key_value json schema array_field parent_id_column nested_key_column
    | some (ArraySource.DoubleNested parent_id_column level_key_column) =>
        parse_double_nested json schema parent_id_column level_key_column

/-- The parent identifier a junction strategy requires, exactly as read in
record.rs: `_key` for four strategies, `blueprintTypeID` falling back to
`_key` for BlueprintActivity. -/
def junctionParentId (src : ArraySource) (json : Json) : Option Int :=
  match src with
  | ArraySource.BlueprintActivity _ _ =>
      ((getField json "blueprintTypeID").orElse (fun _ => getField json "_key")).bind asI64
  | _ => (getField json "_key").bind asI64

/-- Whether an `Except` result is an error. -/
def isError {α : Type} : Except String α → Bool
  | Except.error _ => true
  | Except.ok _ => false

/-- Payload of a successful result (used to state concrete witnesses). -/
def getOk {α : Type} (dflt : α) : Except String α → α
  | Except.ok a => a
  | Except.error _ => dflt

/-! ## Writer (src/writer/sqlite.rs, src/writer/schema_gen.rs) -/

/-- `get_column_names` (writer/sqlite.rs): the output column list, expanding
localized columns into one column per language. -/
def get_column_names (schema : TableSchema) : List String :=
  schema.columns.flatMap (fun col =>
    match col.col_type with
    | ColumnType.Localized => LANGUAGES.map (fun lang => col.name ++ "_" ++ lang)
    | _ => [col.name])

/-- Rust `str::starts_with`, via character lists so that it reduces
definitionally. -/
def strStartsWith (s pre : String) : Bool :=
  pre.data.isPrefixOf s.data

/-- Rust-style suffix test, via character lists so that it reduces
definitionally. -/
def strEndsWith (s post : String) : Bool :=
  post.data.isSuffixOf s.data

/-- The `CREATE INDEX` statement emitted for one column. -/
def idxStmt (table : String) (column : String) : String :=
  "CREATE INDEX idx_" ++ table ++ "_" ++ column ++ " ON " ++ table ++ "(" ++ column ++ ")"

/-- `generate_indexes` (writer/schema_gen.rs). -/
def generate_indexes (schema : TableSchema) : List String :=
  (schema.foreign_keys.map (fun fk => idxStmt schema.name fk.column))
  ++ (if schema.columns.any (fun c => c.name == "name" && c.col_type == ColumnType.Localized)
      then [idxStmt schema.name "name_en"]
      else [])
  ++ (if schema.array_source.isSome && schema.foreign_keys.length == 2 then
        match schema.foreign_keys.map (fun fk => fk.column) with
        | [c0, c1] =>
            ["CREATE UNIQUE INDEX idx_" ++ schema.name ++ "_composite ON " ++ schema.name
              ++ "(" ++ c0 ++ ", " ++ c1 ++ ")"]
        | _ => []
      else [])
  ++ ((schema.columns.filter (fun col =>
        !(schema.foreign_keys.any (fun fk => fk.column == col.name)) &&
        (col.name == "published" || col.name == "deleted" || col.name == "activity" ||
         col.name == "security_status" || strStartsWith col.name "is_" ||
         strStartsWith col.name "visible_"))).map
      (fun col => idxStmt schema.name col.name))

/-! ## Dependency resolver (src/schema/dependencies.rs) -/

/-- `self.deps.get(name)`: the dependency-map entry for `name`. The map's
keys are exactly the registry names, so this is a lookup through
`get_table`. -/
def depsOf (name : String) : Option (List String) :=
  (get_table name).map (fun t => t.dependencies)

/-- The dependency list the `visit` loop recurses into for `name`: the
dependencies restricted to non-self edges into the included set. -/
def depListFor (name : String) (included : List String) : List String :=
  ((depsOf name).getD []).filter (fun d => decide (d ≠ name ∧ d ∈ included))

/-- `DependencyResolver::visit` (dependencies.rs), with explicit fuel.
Returns the updated visited set and result list; `temp` is the
currently-visiting marker set (net unchanged by a successful call in the
Rust code, hence a plain parameter here). The `for dep in deps` loop is the
inner fold. -/
def visitF : Nat → String → List String → List String → List String →
    List TableSchema → Except String (List String × List TableSchema)
  | 0, _, _, _, _, _ => Except.error "Out of fuel"
  | fuel + 1, name, included, visited, temp, result =>
    if name ∈ temp then Except.error ("Circular dependency detected at: " ++ name)
    else if name ∈ visited then Except.ok (visited, result)
    else
      match (depListFor name included).foldl
          (fun acc d =>
            match acc with
            | Except.error e => Except.error e
            | Except.ok (v, r) => visitF fuel d included v (name :: temp) r)
          (Except.ok (visited, result)) with
      | Except.error e => Except.error e
      | Except.ok (v, r) =>
        match get_table name with
        | some t => Except.ok (name :: v, r ++ [t])
        | none => Except.ok (name :: v, r)

/-- The `for dep in deps` loop inside `visit`, named for the proofs: the
fold `visitF` performs over the dependency list. -/
def visitListF (fuel : Nat) (ds : List String) (included visited temp : List String)
    (result : List TableSchema) : Except String (List String × List TableSchema) :=
  ds.foldl
    (fun acc d =>
      match acc with
      | Except.error e => Except.error e
      | Except.ok (v, r) => visitF fuel d included v temp r)
    (Except.ok (visited, result))

theorem visitF_zero (name : String) (included visited temp : List String)
    (result : List TableSchema) :
    visitF 0 name included visited temp result = Except.error "Out of fuel" := rfl

theorem visitF_succ (fuel : Nat) (name : String) (included visited temp : List String)
    (result : List TableSchema) :
    visitF (fuel + 1) name included visited temp result =
      (if name ∈ temp then Except.error ("Circular dependency detected at: " ++ name)
       else if name ∈ visited then Except.ok (visited, result)
       else
         match visitListF fuel (depListFor name included) included visited
             (name :: temp) result with
         | Except.error e => Except.error e
         | Except.ok (v, r) =>
           match get_table name with
           | some t => Except.ok (name :: v, r ++ [t])
           | none => Except.ok (name :: v, r)) := rfl

theorem visitListF_nil (fuel : Nat) (included visited temp : List String)
    (result : List TableSchema) :
    visitListF fuel [] included visited temp result = Except.ok (visited, result) := rfl

theorem foldVisit_error (fuel : Nat) (included temp : List String) (e : String) :
    ∀ ds : List String,
      ds.foldl
        (fun acc d =>
          match acc with
          | Except.error e => Except.error e
          | Except.ok (v, r) => visitF fuel d included v temp r)
        (Except.error e) = Except.error e := by
  intro ds
  induction ds with
  | nil => rfl
  | cons d ds ih => rw [List.foldl_cons]; exact ih

theorem visitListF_cons (fuel : Nat) (d : String) (ds : List String)
    (included visited temp : List String) (result : List TableSchema) :
    visitListF fuel (d :: ds) included visited temp result =
      match visitF fuel d included visited temp result with
      | Except.error e => Except.error e
      | Except.ok (v, r) => visitListF fuel ds included v temp r := by
  have hinit : visitListF fuel (d :: ds) included visited temp result =
      List.foldl
        (fun acc d =>
          match acc with
          | Except.error e => Except.error e
          | Except.ok (v, r) => visitF fuel d included v temp r)
        (visitF fuel d included visited temp result) ds := rfl
  rw [hinit]
  cases h : visitF fuel d included visited temp result with
  | error e => exact foldVisit_error fuel included temp e ds
  | ok p =>
    obtain ⟨v, r⟩ := p
    rfl

/-- The `for table_name in included` loop of `topological_sort`
(dependencies.rs). Rust iterates a HashSet in unspecified order; the order
is a parameter here and the ordering theorems hold for every order. -/
def topoGo (fuel : Nat) (included : List String) :
    List String → List String → List TableSchema → Except String (List TableSchema)
  | [], _, result => Except.ok result
  | n :: ns, visited, result =>
    if n ∈ visited then topoGo fuel included ns visited result
    else
      match visitF fuel n included visited [] result with
      | Except.error e => Except.error e
      | Except.ok (v, r) => topoGo fuel included ns v r

/-- `DependencyResolver::topological_sort` (dependencies.rs). Fuel 100
exceeds the recursion-depth bound on the 65-table registry. -/
def topological_sort (included : List String) : Except String (List TableSchema) :=
  topoGo 100 included included [] []

/-- The BFS worklist loop of `resolve_includes` (dependencies.rs), with
explicit fuel; `included` accumulates in first-inserted order. -/
def includeClosure : Nat → List String → List String → Except String (List String)
  | _, included, [] => Except.ok included
  | 0, _, _ :: _ => Except.error "Out of fuel"
  | fuel + 1, included, name :: queue =>
    if name ∈ included then includeClosure fuel included queue
    else
      match get_table name with
      | none => Except.error ("Unknown table: " ++ name)
      | some t =>
        includeClosure fuel (included ++ [name])
          (queue ++ t.dependencies.filter (fun d => decide (d ∉ included ++ [name]))
                 ++ t.child_tables.filter (fun c => decide (c ∉ included ++ [name])))

/-- `DependencyResolver::resolve_includes`. The fuel bound exceeds the
total number of worklist pushes possible on the fixed registry. -/
def resolve_includes (requested : List String) : Except String (List TableSchema) :=
  match includeClosure (requested.length + 1000) [] requested with
  | Except.error e => Except.error e
  | Except.ok included => topological_sort included

/-- `DependencyResolver::resolve_excludes`. -/
def resolve_excludes (excluded : List String) : Except String (List TableSchema) :=
  match excluded.find? (fun n => (get_table n).isNone) with
  | some n => Except.error ("Unknown table: " ++ n)
  | none =>
    topological_sort
      ((ALL_TABLES.filter (fun t =>
        decide (t.name ∉ excluded ∧ ∀ fk ∈ t.foreign_keys, fk.references_table ∉ excluded))).map
        (fun t => t.name))

/-- `DependencyResolver::all_tables_ordered`: the registry in its predefined
order. -/
def all_tables_ordered : List TableSchema := ALL_TABLES


/-! ## Registry lemmas -/

theorem get_table_name_eq {n : String} {t : TableSchema} (h : get_table n = some t) :
    t.name = n := by
  have h2 := List.find?_some h
  simpa using h2

theorem get_table_mem {n : String} {t : TableSchema} (h : get_table n = some t) :
    t ∈ ALL_TABLES :=
  List.mem_of_find?_eq_some h

theorem names_nodup : table_names.Nodup := by decide

theorem find?_name_of_nodup (l : List TableSchema) (hnd : (l.map (fun t => t.name)).Nodup) :
    ∀ t ∈ l, l.find? (fun u => u.name == t.name) = some t := by
  induction l with
  | nil => intro t ht; cases ht
  | cons u rest ih =>
    intro t ht
    simp only [List.map_cons, List.nodup_cons] at hnd
    rcases List.mem_cons.mp ht with rfl | htr
    · exact List.find?_cons_of_pos _ (by simp)
    · have hname : t.name ∈ rest.map (fun x => x.name) := List.mem_map_of_mem _ htr
      have hne : (u.name == t.name) = false := by
        rw [beq_eq_false_iff_ne]
        intro he
        exact hnd.1 (he ▸ hname)
      simp only [List.find?, hne]
      exact ih hnd.2 t htr

theorem get_table_of_mem {t : TableSchema} (h : t ∈ ALL_TABLES) :
    get_table t.name = some t :=
  find?_name_of_nodup ALL_TABLES names_nodup t h

theorem get_table_isSome_iff (n : String) :
    (get_table n).isSome = true ↔ n ∈ table_names := by
  constructor
  · intro h
    obtain ⟨t, ht⟩ := Option.isSome_iff_exists.mp h
    have hn := get_table_name_eq ht
    have hm := get_table_mem ht
    exact hn ▸ List.mem_map_of_mem _ hm
  · intro h
    obtain ⟨t, hmem, hn⟩ := List.mem_map.mp h
    rw [← hn, get_table_of_mem hmem]
    rfl

/-- Membership in `dependencies` is existence of a foreign key with that
referenced table. -/
theorem dependencies_iff (t : TableSchema) (d : String) :
    d ∈ t.dependencies ↔ ∃ fk ∈ t.foreign_keys, fk.references_table = d := by
  simp [TableSchema.dependencies, List.mem_dedup, List.mem_map]

/-- Position of a table name in the registry order. -/
def tableIdx (n : String) : Nat := table_names.indexOf n

theorem deps_valid : ∀ t ∈ ALL_TABLES, ∀ d ∈ t.dependencies,
    (get_table d).isSome = true := by decide

theorem edge_idx : ∀ t ∈ ALL_TABLES, ∀ d ∈ t.dependencies, d ≠ t.name →
    tableIdx d < tableIdx t.name := by decide

theorem idx_bound : ∀ t ∈ ALL_TABLES, tableIdx t.name < 100 := by decide

/-- The ordering property claimed for resolver results: whenever table `T1`
has a foreign key naming `T2` and `T2` is not `T1` itself, `T2` appears at a
strictly earlier position. -/
abbrev DepOrdered (l : List TableSchema) : Prop :=
  ∀ i, ∀ hi : i < l.length, ∀ j, ∀ hj : j < l.length,
    (∃ fk ∈ (l.get ⟨i, hi⟩).foreign_keys, fk.references_table = (l.get ⟨j, hj⟩).name) →
    (l.get ⟨j, hj⟩).name ≠ (l.get ⟨i, hi⟩).name → j < i


/-! ## Row lemmas -/

theorem any_key_iff (row : ParsedRow) (k : String) :
    row.any (fun p => p.1 == k) = true ↔ k ∈ rowKeys row := by
  simp [rowKeys, List.any_eq_true, List.mem_map, beq_iff_eq]

theorem rowGet_rowInsert_self (row : ParsedRow) (k : String) (v : SqlValue) :
    rowGet (rowInsert row k v) k = some v := by
  unfold rowInsert rowGet
  by_cases h : row.any (fun p => p.1 == k) = true
  · rw [if_pos h]
    have hfun : (fun p : String × SqlValue =>
        (if p.1 == k then (k, v) else p).1 == k) = (fun p => p.1 == k) := by
      funext p
      by_cases hp : (p.1 == k) = true <;> simp [hp]
    rw [List.find?_map]
    have : ((fun p : String × SqlValue => p.1 == k) ∘
        (fun p => if p.1 == k then (k, v) else p)) = (fun p => p.1 == k) := hfun
    rw [this]
    obtain ⟨p0, hp0mem, hp0⟩ := List.any_eq_true.mp h
    cases hf : row.find? (fun p => p.1 == k) with
    | none =>
      rw [List.find?_eq_none] at hf
      exact absurd hp0 (hf p0 hp0mem)
    | some p1 =>
      have hp1 := List.find?_some hf
      have hp1k : p1.1 = k := by simpa using hp1
      simp [hp1, hp1k]
  · rw [if_neg h]
    have hf : row.find? (fun p => p.1 == k) = none := by
      rw [List.find?_eq_none]
      intro x hx hpx
      exact h (List.any_eq_true.mpr ⟨x, hx, hpx⟩)
    rw [List.find?_append, hf]
    simp

theorem rowGet_rowInsert_other (row : ParsedRow) (k : String) (v : SqlValue)
    (k' : String) (h : k' ≠ k) :
    rowGet (rowInsert row k v) k' = rowGet row k' := by
  unfold rowInsert rowGet
  by_cases hc : row.any (fun p => p.1 == k) = true
  · rw [if_pos hc]
    have hkk : (k == k') = false := by
      rw [beq_eq_false_iff_ne]
      exact fun he => h he.symm
    have hfun : (fun p : String × SqlValue =>
        (if p.1 == k then (k, v) else p).1 == k') = (fun p => p.1 == k') := by
      funext p
      by_cases hp : (p.1 == k) = true
      · have hpk : p.1 = k := by simpa using hp
        simp [hp, hkk, hpk]
      · simp [hp]
    rw [List.find?_map]
    have hcomp : ((fun p : String × SqlValue => p.1 == k') ∘
        (fun p => if p.1 == k then (k, v) else p)) = (fun p => p.1 == k') := hfun
    rw [hcomp]
    cases hf : row.find? (fun p => p.1 == k') with
    | none => simp
    | some p1 =>
      have hp1 := List.find?_some hf
      have hp1k : p1.1 ≠ k := by
        intro he
        have : p1.1 = k' := by simpa using hp1
        exact h (this ▸ he)
      simp [hp1k]
  · rw [if_neg hc]
    rw [List.find?_append]
    have hkk : (k == k') = false := by
      rw [beq_eq_false_iff_ne]
      exact fun he => h he.symm
    simp [List.find?, hkk]

theorem rowKeys_rowInsert_mem (row : ParsedRow) (k : String) (v : SqlValue)
    (h : k ∈ rowKeys row) :
    rowKeys (rowInsert row k v) = rowKeys row := by
  unfold rowInsert
  rw [if_pos ((any_key_iff row k).mpr h)]
  unfold rowKeys
  rw [List.map_map]
  apply List.map_congr_left
  intro p _
  by_cases hp : (p.1 == k) = true
  · have hpk : p.1 = k := by simpa using hp
    simp [hp, hpk]
  · have hpk : p.1 ≠ k := by simpa using hp
    simp [hp, hpk]

theorem rowKeys_rowInsert_not_mem (row : ParsedRow) (k : String) (v : SqlValue)
    (h : k ∉ rowKeys row) :
    rowKeys (rowInsert row k v) = rowKeys row ++ [k] := by
  unfold rowInsert
  have : row.any (fun p => p.1 == k) = false := by
    rw [← Bool.not_eq_true, any_key_iff]
    exact h
  rw [if_neg (by simp [this])]
  unfold rowKeys
  simp


/-! ## Fold-insert lemmas -/

theorem foldIns_get_not_mem (f : String → String) (g : String → SqlValue) :
    ∀ (ks : List String) (row : ParsedRow) (k' : String), k' ∉ ks.map f →
      rowGet (ks.foldl (fun r x => rowInsert r (f x) (g x)) row) k' = rowGet row k' := by
  intro ks
  induction ks with
  | nil => intro row k' _; rfl
  | cons a rest ih =>
    intro row k' h
    simp only [List.map_cons, List.mem_cons, not_or] at h
    rw [List.foldl_cons, ih _ _ h.2, rowGet_rowInsert_other _ _ _ _ h.1]

theorem foldIns_get_mem (f : String → String) (g : String → SqlValue) :
    ∀ (ks : List String) (row : ParsedRow) (k : String), k ∈ ks → (ks.map f).Nodup →
      rowGet (ks.foldl (fun r x => rowInsert r (f x) (g x)) row) (f k) = some (g k) := by
  intro ks
  induction ks with
  | nil => intro row k hk; cases hk
  | cons a rest ih =>
    intro row k hk hnd
    simp only [List.map_cons, List.nodup_cons] at hnd
    rw [List.foldl_cons]
    rcases List.mem_cons.mp hk with rfl | hkr
    · rw [foldIns_get_not_mem f g rest _ _ hnd.1]
      exact rowGet_rowInsert_self _ _ _
    · exact ih _ k hkr hnd.2

theorem foldIns_keys (f : String → String) (g : String → SqlValue) :
    ∀ (ks : List String) (row : ParsedRow), (∀ x ∈ ks, f x ∉ rowKeys row) →
      (ks.map f).Nodup →
      rowKeys (ks.foldl (fun r x => rowInsert r (f x) (g x)) row) = rowKeys row ++ ks.map f := by
  intro ks
  induction ks with
  | nil => intro row _ _; simp
  | cons a rest ih =>
    intro row hd hnd
    simp only [List.map_cons, List.nodup_cons] at hnd
    rw [List.foldl_cons, ih _ ?hd2 hnd.2, rowKeys_rowInsert_not_mem _ _ _ (hd a (by simp))]
    · simp
    case hd2 =>
      intro x hx
      rw [rowKeys_rowInsert_not_mem _ _ _ (hd a (by simp))]
      simp only [List.mem_append, List.mem_singleton, not_or]
      refine ⟨hd x (by simp [hx]), ?_⟩
      intro he
      exact hnd.1 (he ▸ List.mem_map_of_mem f hx)

/-! ## Column application lemmas -/

/-- The output keys one schema column contributes. -/
def colKeys (col : Column) : List String :=
  match col.col_type with
  | ColumnType.Localized => LANGUAGES.map (fun lang => col.name ++ "_" ++ lang)
  | _ => [col.name]

theorem get_column_names_eq (schema : TableSchema) :
    get_column_names schema = schema.columns.flatMap colKeys := rfl

theorem colKeys_nonloc (col : Column) (h : col.col_type ≠ ColumnType.Localized) :
    colKeys col = [col.name] := by
  unfold colKeys
  cases hc : col.col_type <;> first | rfl | exact absurd hc h

theorem applyColumn_get_not_mem (json : Json) (values : ParsedRow) (col : Column)
    (k' : String) (h : k' ∉ colKeys col) :
    rowGet (applyColumn json values col) k' = rowGet values k' := by
  unfold applyColumn
  unfold colKeys at h
  cases hc : col.col_type <;> rw [hc] at h
  case Localized =>
    cases hobj : (getField json (to_camel_case col.name)).bind asObject with
    | some obj => exact foldIns_get_not_mem _ _ LANGUAGES values k' h
    | none => exact foldIns_get_not_mem _ _ LANGUAGES values k' h
  all_goals exact rowGet_rowInsert_other _ _ _ _ (by simpa using h)

theorem applyColumn_keys (json : Json) (values : ParsedRow) (col : Column)
    (hd : ∀ x ∈ colKeys col, x ∉ rowKeys values) (hnd : (colKeys col).Nodup) :
    rowKeys (applyColumn json values col) = rowKeys values ++ colKeys col := by
  unfold applyColumn
  unfold colKeys at hd hnd ⊢
  cases hc : col.col_type <;> rw [hc] at hd hnd
  case Localized =>
    have hd2 : ∀ x ∈ LANGUAGES, (col.name ++ "_" ++ x) ∉ rowKeys values :=
      fun x hx => hd _ (List.mem_map_of_mem _ hx)
    cases hobj : (getField json (to_camel_case col.name)).bind asObject with
    | some obj => exact foldIns_keys _ _ LANGUAGES values hd2 hnd
    | none => exact foldIns_keys _ _ LANGUAGES values hd2 hnd
  all_goals
    exact rowKeys_rowInsert_not_mem _ _ _ (hd col.name (List.mem_singleton_self _))

theorem applyColumn_get_nonloc (json : Json) (values : ParsedRow) (col : Column)
    (h : col.col_type ≠ ColumnType.Localized) :
    rowGet (applyColumn json values col) col.name =
      some (extract_value json (if col.name == "id" then "_key" else to_camel_case col.name)
        col.col_type) := by
  unfold applyColumn
  cases hc : col.col_type
  case Localized => exact absurd hc h
  all_goals exact rowGet_rowInsert_self _ _ _

theorem applyColumn_get_loc (json : Json) (values : ParsedRow) (col : Column)
    (lang : String) (h : col.col_type = ColumnType.Localized) (hlang : lang ∈ LANGUAGES)
    (hnd : (colKeys col).Nodup) :
    rowGet (applyColumn json values col) (col.name ++ "_" ++ lang) =
      some (localizedValue json col.name lang) := by
  unfold applyColumn localizedValue
  unfold colKeys at hnd
  rw [h] at hnd ⊢
  cases hobj : (getField json (to_camel_case col.name)).bind asObject with
  | some obj =>
    exact foldIns_get_mem (fun lang => col.name ++ "_" ++ lang)
      (fun lang => match (objGet obj lang).bind asStr with
        | some s => SqlValue.Text s
        | none => SqlValue.Null) LANGUAGES values lang hlang hnd
  | none =>
    exact foldIns_get_mem (fun lang => col.name ++ "_" ++ lang)
      (fun _ => SqlValue.Null) LANGUAGES values lang hlang hnd


/-! ## Whole-record lemmas -/

theorem foldCols_get_not_mem (json : Json) :
    ∀ (cols : List Column) (row : ParsedRow) (k : String), k ∉ cols.flatMap colKeys →
      rowGet (cols.foldl (applyColumn json) row) k = rowGet row k := by
  intro cols
  induction cols with
  | nil => intro row k _; rfl
  | cons c rest ih =>
    intro row k h
    rw [List.flatMap_cons] at h
    simp only [List.mem_append, not_or] at h
    rw [List.foldl_cons, ih _ _ h.2, applyColumn_get_not_mem _ _ _ _ h.1]

theorem colKeys_loc (col : Column) (h : col.col_type = ColumnType.Localized) :
    colKeys col = LANGUAGES.map (fun lang => col.name ++ "_" ++ lang) := by
  unfold colKeys
  rw [h]

theorem foldCols_keys (json : Json) :
    ∀ (cols : List Column) (row : ParsedRow),
      (rowKeys row ++ cols.flatMap colKeys).Nodup →
      rowKeys (cols.foldl (applyColumn json) row) = rowKeys row ++ cols.flatMap colKeys := by
  intro cols
  induction cols with
  | nil => intro row _; simp
  | cons c rest ih =>
    intro row hnd
    rw [List.flatMap_cons] at hnd ⊢
    rw [List.foldl_cons]
    obtain ⟨ndA, ndBC, disj⟩ := List.nodup_append.mp hnd
    have hdisj : ∀ x ∈ colKeys c, x ∉ rowKeys row :=
      fun x hxB hxA => disj hxA (List.mem_append_left _ hxB)
    have hndc : (colKeys c).Nodup := ndBC.of_append_left
    have hkeys : rowKeys (applyColumn json row c) = rowKeys row ++ colKeys c :=
      applyColumn_keys _ _ _ hdisj hndc
    rw [ih _ ?hn, hkeys, List.append_assoc]
    case hn =>
      rw [hkeys, List.append_assoc]
      exact hnd

theorem foldCols_get_nonloc (json : Json) :
    ∀ (cols : List Column) (row : ParsedRow) (col : Column),
      col ∈ cols → col.col_type ≠ ColumnType.Localized →
      (rowKeys row ++ cols.flatMap colKeys).Nodup →
      rowGet (cols.foldl (applyColumn json) row) col.name =
        some (extract_value json
          (if col.name == "id" then "_key" else to_camel_case col.name) col.col_type) := by
  intro cols
  induction cols with
  | nil => intro row col hc; cases hc
  | cons c rest ih =>
    intro row col hc hloc hnd
    rw [List.flatMap_cons] at hnd
    rw [List.foldl_cons]
    obtain ⟨ndA, ndBC, disj⟩ := List.nodup_append.mp hnd
    have hdisj : ∀ x ∈ colKeys c, x ∉ rowKeys row :=
      fun x hxB hxA => disj hxA (List.mem_append_left _ hxB)
    have hndc : (colKeys c).Nodup := ndBC.of_append_left
    rcases List.mem_cons.mp hc with rfl | hcr
    · have hck : colKeys col = [col.name] := colKeys_nonloc col hloc
      have hnotin : col.name ∉ rest.flatMap colKeys := by
        have h2 := ndBC
        rw [hck] at h2
        exact (List.nodup_cons.mp h2).1
      rw [foldCols_get_not_mem json rest _ _ hnotin]
      exact applyColumn_get_nonloc json row col hloc
    · have hkeys : rowKeys (applyColumn json row c) = rowKeys row ++ colKeys c :=
        applyColumn_keys _ _ _ hdisj hndc
      apply ih _ col hcr hloc
      rw [hkeys, List.append_assoc]
      exact hnd

theorem foldCols_get_loc (json : Json) :
    ∀ (cols : List Column) (row : ParsedRow) (col : Column) (lang : String),
      col ∈ cols → col.col_type = ColumnType.Localized → lang ∈ LANGUAGES →
      (rowKeys row ++ cols.flatMap colKeys).Nodup →
      rowGet (cols.foldl (applyColumn json) row) (col.name ++ "_" ++ lang) =
        some (localizedValue json col.name lang) := by
  intro cols
  induction cols with
  | nil => intro row col lang hc; cases hc
  | cons c rest ih =>
    intro row col lang hc hloc hlang hnd
    rw [List.flatMap_cons] at hnd
    rw [List.foldl_cons]
    obtain ⟨ndA, ndBC, disj⟩ := List.nodup_append.mp hnd
    have hdisj : ∀ x ∈ colKeys c, x ∉ rowKeys row :=
      fun x hxB hxA => disj hxA (List.mem_append_left _ hxB)
    have hndc : (colKeys c).Nodup := ndBC.of_append_left
    rcases List.mem_cons.mp hc with rfl | hcr
    · have hkmem : (col.name ++ "_" ++ lang) ∈ colKeys col := by
        rw [colKeys_loc col hloc]
        exact List.mem_map_of_mem _ hlang
      have hnotin : (col.name ++ "_" ++ lang) ∉ rest.flatMap colKeys := by
        intro hin
        exact (List.nodup_append.mp ndBC).2.2 hkmem hin
      rw [foldCols_get_not_mem json rest _ _ hnotin]
      exact applyColumn_get_loc json row col lang hloc hlang hndc
    · have hkeys : rowKeys (applyColumn json row c) = rowKeys row ++ colKeys c :=
        applyColumn_keys _ _ _ hdisj hndc
      apply ih _ col lang hcr hloc hlang
      rw [hkeys, List.append_assoc]
      exact hnd

theorem parseRecordVal_get_nonloc (json : Json) (schema : TableSchema) (col : Column)
    (hmem : col ∈ schema.columns) (hloc : col.col_type ≠ ColumnType.Localized)
    (hnd : (get_column_names schema).Nodup) :
    rowGet (parseRecordVal json schema) col.name =
      some (extract_value json
        (if col.name == "id" then "_key" else to_camel_case col.name) col.col_type) := by
  unfold parseRecordVal
  apply foldCols_get_nonloc json schema.columns [] col hmem hloc
  rw [get_column_names_eq] at hnd
  exact hnd

theorem parseRecordVal_get_loc (json : Json) (schema : TableSchema) (col : Column)
    (lang : String) (hmem : col ∈ schema.columns) (hloc : col.col_type = ColumnType.Localized)
    (hlang : lang ∈ LANGUAGES) (hnd : (get_column_names schema).Nodup) :
    rowGet (parseRecordVal json schema) (col.name ++ "_" ++ lang) =
      some (localizedValue json col.name lang) := by
  unfold parseRecordVal
  apply foldCols_get_loc json schema.columns [] col lang hmem hloc hlang
  rw [get_column_names_eq] at hnd
  exact hnd

theorem parseRecordVal_keys (json : Json) (schema : TableSchema)
    (hnd : (get_column_names schema).Nodup) :
    rowKeys (parseRecordVal json schema) = get_column_names schema := by
  unfold parseRecordVal
  rw [get_column_names_eq] at hnd ⊢
  exact foldCols_keys json schema.columns [] hnd


/-! ## Claim C4 -/

/-- C4: counterexample. The claim states that `dependencies` excludes
self-references, but `market_groups` (whose foreign key `parent_group_id`
references `market_groups` itself) has its own name in its returned
dependency set. -/
theorem c4_counterexample :
    MARKET_GROUPS.name = "market_groups" ∧
    (ForeignKey.new "parent_group_id" "market_groups") ∈ MARKET_GROUPS.foreign_keys ∧
    "market_groups" ∈ MARKET_GROUPS.dependencies := by
  refine ⟨rfl, by decide, by decide⟩

/-- C4 (amended): `dependencies(table)` equals the set of distinct
`references_table` values over the table's foreign keys, with self-references
included; self-references are skipped later, by the resolver's `visit`, not
by `dependencies`. -/
theorem c4_dependencies_amended (t : TableSchema) (d : String) :
    d ∈ t.dependencies ↔ ∃ fk ∈ t.foreign_keys, fk.references_table = d :=
  dependencies_iff t d

/-! ## Claim C6 -/

/-- C6 counterexample input: an integer-kind JSON number under a Real
column. -/
def c6Probe : Json := Json.Obj [("x", Json.Num (JsonNum.int 3))]

/-- C6: counterexample. The claim says a Real column yields the number only
when the value is a JSON number "of that kind" (a real-kind number) and Null
otherwise; but on an integer-kind JSON number the code yields the number
coerced to real, not Null. -/
theorem c6_counterexample :
    getField c6Probe "x" = some (Json.Num (JsonNum.int 3)) ∧
    extract_value c6Probe "x" ColumnType.Real = SqlValue.Real 3 ∧
    SqlValue.Real 3 ≠ SqlValue.Null := by
  refine ⟨rfl, by decide, by decide⟩

/-- The amended C6 coercion specification, following the claim text with the
one correction the counterexample forces: a missing field or JSON null
yields Null regardless of type; an Integer column yields the number only for
an integer-kind JSON number; a Real column yields the number for ANY JSON
number (integer-kind numbers are coerced); a Text column yields the string
only for a JSON string; a Boolean column maps true/false to 1/0 and anything
else to Null; a Json column yields the verbatim serialization. (The
Localized case never reaches `extract_value` in the code and yields Null.) -/
def extractValueSpec (json : Json) (key : String) (ct : ColumnType) : SqlValue :=
  match getField json key with
  | none => SqlValue.Null
  | some Json.Null => SqlValue.Null
  | some v =>
    match ct with
    | ColumnType.Integer =>
        match v with
        | Json.Num (JsonNum.int i) => SqlValue.Integer i
        | _ => SqlValue.Null
    | ColumnType.Real =>
        match v with
        | Json.Num (JsonNum.int i) => SqlValue.Real (i : ℚ)
        | Json.Num (JsonNum.float q) => SqlValue.Real q
        | _ => SqlValue.Null
    | ColumnType.Text =>
        match v with
        | Json.Str s => SqlValue.Text s
        | _ => SqlValue.Null
    | ColumnType.Boolean =>
        match v with
        | Json.Bool b => SqlValue.Integer (if b then 1 else 0)
        | _ => SqlValue.Null
    | ColumnType.Json => SqlValue.Text (serialize v)
    | ColumnType.Localized => SqlValue.Null

/-- C6 (amended): `extract_value` realizes exactly the amended coercion
specification above. -/
theorem c6_extract_value_amended (json : Json) (key : String) (ct : ColumnType) :
    extract_value json key ct = extractValueSpec json key ct := by
  unfold extract_value extractValueSpec
  cases hv : getField json key with
  | none => rfl
  | some v =>
    cases v with
    | Null => rfl
    | Bool b => cases ct <;> rfl
    | Num n => cases n <;> cases ct <;> rfl
    | Str s => cases ct <;> rfl
    | Arr xs => cases ct <;> rfl
    | Obj fs => cases ct <;> rfl

/-! ## Claim C5 -/

/-- C5 counterexample support: a non-junction schema whose only column sets
an explicit source-field override (`json_field = "grp"`). -/
def overrideProbeSchema : TableSchema :=
  { name := "probe"
  , source_file := "probe.jsonl"
  , columns := [(Column.new "group_id" ColumnType.Integer).json "grp"]
  , foreign_keys := []
  , indexes := []
  , child_tables := []
  , array_source := none }

/-- C5 counterexample input: the override field `grp` holds 5, the camelCase
field `groupID` holds 7. -/
def overrideProbeJson : Json :=
  Json.Obj [("grp", Json.Num (JsonNum.int 5)), ("groupID", Json.Num (JsonNum.int 7))]

/-- C5: counterexample. The claim says `parse_record` reads from the
explicit source-field override when one is set; on this non-junction schema
the column's override names field `grp` (value 5), yet `parse_record` reads
the camelCase field `groupID` (value 7). The override is honored only by the
junction-array parser. -/
theorem c5_counterexample :
    overrideProbeSchema.array_source = none ∧
    ((Column.new "group_id" ColumnType.Integer).json "grp") ∈ overrideProbeSchema.columns ∧
    ((Column.new "group_id" ColumnType.Integer).json "grp").json_field = some "grp" ∧
    getField overrideProbeJson "grp" = some (Json.Num (JsonNum.int 5)) ∧
    rowGet (parseRecordVal overrideProbeJson overrideProbeSchema) "group_id" =
      some (SqlValue.Integer 7) := by
  refine ⟨rfl, by decide, rfl, rfl, by decide⟩

/-- C5 (amended): for every non-junction schema (with distinct output
columns) and every non-Localized column, `parse_record` reads the column's
value from the literal field `_key` when the column is named `id`, and from
the camelCase transform of the column name otherwise (a name ending in `_id`
maps to a field ending in `ID`, e.g. `group_id` to `groupID`); the explicit
source-field override is ignored here and honored only by the junction
parser. -/
theorem c5_field_resolution_amended (schema : TableSchema) (json : Json) (col : Column)
    (hmem : col ∈ schema.columns) (hloc : col.col_type ≠ ColumnType.Localized)
    (hnd : (get_column_names schema).Nodup) :
    to_camel_case "group_id" = "groupID" ∧
    rowGet (parseRecordVal json schema) col.name =
      some (extract_value json
        (if col.name == "id" then "_key" else to_camel_case col.name) col.col_type) :=
  ⟨rfl, parseRecordVal_get_nonloc json schema col hmem hloc hnd⟩

/-- C5 witness: the amended theorem applied to the registry schema
`categories`, its `published` column, and a concrete record. -/
theorem c5_witness :
    to_camel_case "group_id" = "groupID" ∧
    rowGet (parseRecordVal (Json.Obj [("published", Json.Bool true)]) CATEGORIES) "published" =
      some (extract_value (Json.Obj [("published", Json.Bool true)]) "published"
        ColumnType.Boolean) :=
  c5_field_resolution_amended CATEGORIES (Json.Obj [("published", Json.Bool true)])
    (Column.new "published" ColumnType.Boolean) (by decide) (by decide) (by decide)

/-! ## Claim C7 -/

/-- C7: for every non-junction schema (with distinct output columns) and
every Localized column, `parse_record` emits exactly one value per language
code of the fixed ordered list en, de, es, fr, ja, ko, ru, zh, named
`<column>_<lang>`: the Text value of the language key when the camelCase
source field is an object holding that key as a string, and Null when the
key is absent, not a string, or the object itself absent or not an object. -/
theorem c7_localized_expansion (schema : TableSchema) (col : Column) (json : Json)
    (hmem : col ∈ schema.columns) (hloc : col.col_type = ColumnType.Localized)
    (hnd : (get_column_names schema).Nodup) :
    LANGUAGES = ["en", "de", "es", "fr", "ja", "ko", "ru", "zh"] ∧
    ∀ lang ∈ LANGUAGES,
      ((parseRecordVal json schema).filter
        (fun p => p.1 == col.name ++ "_" ++ lang)).length = 1 ∧
      rowGet (parseRecordVal json schema) (col.name ++ "_" ++ lang) =
        some (localizedValue json col.name lang) := by
  refine ⟨rfl, fun lang hlang =>
    ⟨?_, parseRecordVal_get_loc json schema col lang hmem hloc hlang hnd⟩⟩
  have hkmem : (col.name ++ "_" ++ lang) ∈ get_column_names schema := by
    rw [get_column_names_eq]
    refine List.mem_flatMap.mpr ⟨col, hmem, ?_⟩
    rw [colKeys_loc col hloc]
    exact List.mem_map_of_mem _ hlang
  rw [← List.countP_eq_length_filter]
  have hcnt : List.countP (fun p => p.1 == col.name ++ "_" ++ lang) (parseRecordVal json schema)
      = List.count (col.name ++ "_" ++ lang) (rowKeys (parseRecordVal json schema)) := by
    rw [rowKeys, List.count, List.countP_map]
    rfl
  rw [hcnt, parseRecordVal_keys json schema hnd]
  exact List.count_eq_one_of_mem hnd hkmem


/-- C7 witness input: the spec's own example record. -/
def c7ProbeJson : Json :=
  Json.Obj [("_key", Json.Num (JsonNum.int 1)),
            ("name", Json.Obj [("en", Json.Str "Veldspar"), ("de", Json.Str "Veldspar")])]

/-- C7 witness: the theorem applied to the registry schema `categories`, its
Localized `name` column, language `en`, and the spec's example record. -/
theorem c7_witness :
    ((parseRecordVal c7ProbeJson CATEGORIES).filter (fun p => p.1 == "name_en")).length = 1 ∧
    rowGet (parseRecordVal c7ProbeJson CATEGORIES) "name_en" =
      some (localizedValue c7ProbeJson "name" "en") :=
  (c7_localized_expansion CATEGORIES (Column.new "name" ColumnType.Localized) c7ProbeJson
    (by decide) rfl (by decide)).2 "en" (by decide)

/-! ## Claim C9 -/

/-- C9: counterexample. The claim requires an index on the `en` column of
any Localized column whose name ends in `_name`; `skin_materials` has the
Localized column `display_name`, yet `generate_indexes` emits no statement
at all for it. -/
theorem c9_counterexample :
    (Column.new "display_name" ColumnType.Localized) ∈ SKIN_MATERIALS.columns ∧
    strEndsWith "display_name" "_name" = true ∧
    generate_indexes SKIN_MATERIALS = [] := by
  refine ⟨by decide, by decide, rfl⟩

/-- C9 (amended): the generated CREATE INDEX statements include one index
per foreign-key column, one index on the `en` column of a Localized column
only when that column is named exactly `name` (columns merely ending in
`_name` get none), a composite unique index over the two foreign-key columns
when the schema is a junction table with exactly two foreign keys, and an
index on every column named published, deleted, activity, security_status,
or starting with `is_` or `visible_`. -/
theorem c9_generate_indexes_amended (schema : TableSchema) :
    (∀ fk ∈ schema.foreign_keys, idxStmt schema.name fk.column ∈ generate_indexes schema) ∧
    ((∃ col ∈ schema.columns, col.name = "name" ∧ col.col_type = ColumnType.Localized) →
      idxStmt schema.name "name_en" ∈ generate_indexes schema) ∧
    (∀ fk0 fk1, schema.array_source.isSome = true → schema.foreign_keys = [fk0, fk1] →
      ("CREATE UNIQUE INDEX idx_" ++ schema.name ++ "_composite ON " ++ schema.name ++ "(" ++
        fk0.column ++ ", " ++ fk1.column ++ ")") ∈ generate_indexes schema) ∧
    (∀ col ∈ schema.columns,
      (col.name = "published" ∨ col.name = "deleted" ∨ col.name = "activity" ∨
       col.name = "security_status" ∨ strStartsWith col.name "is_" = true ∨
       strStartsWith col.name "visible_" = true) →
      idxStmt schema.name col.name ∈ generate_indexes schema) := by
  unfold generate_indexes
  refine ⟨?_, ?_, ?_, ?_⟩
  · intro fk hfk
    exact List.mem_append_left _ (List.mem_append_left _
      (List.mem_append_left _ (List.mem_map_of_mem _ hfk)))
  · rintro ⟨col, hmem, hname, hloc⟩
    have hany : (schema.columns.any
        fun c => c.name == "name" && c.col_type == ColumnType.Localized) = true :=
      List.any_eq_true.mpr ⟨col, hmem, by simp [hname, hloc]⟩
    apply List.mem_append_left
    apply List.mem_append_left
    apply List.mem_append_right
    rw [if_pos hany]
    exact List.mem_singleton_self _
  · intro fk0 fk1 hsome hfks
    apply List.mem_append_left
    apply List.mem_append_right
    rw [hfks, hsome]
    simp
  · intro col hmem hcond
    by_cases hcase : (schema.foreign_keys.any fun fk => fk.column == col.name) = true
    · obtain ⟨fk, hfkm, hfke⟩ := List.any_eq_true.mp hcase
      have he : fk.column = col.name := by simpa using hfke
      apply List.mem_append_left
      apply List.mem_append_left
      apply List.mem_append_left
      rw [← he]
      exact List.mem_map_of_mem _ hfkm
    · apply List.mem_append_right
      refine List.mem_map_of_mem _ ?_
      rw [List.mem_filter]
      refine ⟨hmem, ?_⟩
      have hb : (schema.foreign_keys.any fun fk => fk.column == col.name) = false := by
        simpa using hcase
      rw [Bool.and_eq_true]
      refine ⟨by rw [hb]; rfl, ?_⟩
      rcases hcond with h | h | h | h | h | h <;> simp [h]

/-- C9 witness: the amended theorem applied to the two-foreign-key junction
table `type_dogma_attributes` yields its composite unique index. -/
theorem c9_witness :
    ("CREATE UNIQUE INDEX idx_type_dogma_attributes_composite ON type_dogma_attributes(type_id, attribute_id)")
      ∈ generate_indexes TYPE_DOGMA_ATTRIBUTES :=
  (c9_generate_indexes_amended TYPE_DOGMA_ATTRIBUTES).2.2.1
    (ForeignKey.new "type_id" "types") (ForeignKey.new "attribute_id" "dogma_attributes")
    rfl rfl

/-! ## Claim C10 -/

/-- `parse_junction_records` on a parsed line errors exactly when the
strategy's required parent identifier is missing or not an integer. -/
theorem junction_error_iff (schema : TableSchema) (src : ArraySource)
    (h : schema.array_source = some src) (json : Json) :
    isError (parse_junction_records (some json) schema) = true ↔
      junctionParentId src json = none := by
  unfold parse_junction_records
  rw [h]
  cases src with
  | Simple af pc =>
    unfold parse_simple_array junctionParentId
    cases hpid : (getField json "_key").bind asI64 <;> simp [hpid, isError]
  | SimpleIntArray af pc vc =>
    unfold parse_simple_int_array junctionParentId
    cases hpid : (getField json "_key").bind asI64 <;> simp [hpid, isError]
  | BlueprintActivity ac af =>
    unfold parse_blueprint_activity junctionParentId
    cases hpid : ((getField json "blueprintTypeID").orElse
        (fun _ => getField json "_key")).bind asI64 <;> simp [hpid, isError]
  | NestedKeyValue af pc nc =>
    unfold parse_nested_key_value junctionParentId
    cases hpid : (getField json "_key").bind asI64 <;> simp [hpid, isError]
  | DoubleNested pc lc =>
    unfold parse_double_nested junctionParentId
    cases hpid : (getField json "_key").bind asI64 <;> simp [hpid, isError]

/-- C10: `parse_record` succeeds on every successfully parsed JSON line and
fails only on malformed JSON; a missing source field — including the `_key`
identifier backing the `id` column — yields Null for that column instead of
an error (stated for schemas with distinct output columns), in contrast with
junction parsing, where a missing parent identifier is an error. -/
theorem c10_parse_record_total :
    (∀ (schema : TableSchema) (json : Json),
        parse_record (some json) schema = Except.ok (parseRecordVal json schema)) ∧
    (∀ schema : TableSchema, parse_record none schema = Except.error "Failed to parse JSON") ∧
    (∀ (schema : TableSchema) (json : Json) (col : Column),
        col ∈ schema.columns → col.col_type ≠ ColumnType.Localized →
        (get_column_names schema).Nodup →
        getField json (if col.name == "id" then "_key" else to_camel_case col.name) = none →
        rowGet (parseRecordVal json schema) col.name = some SqlValue.Null) ∧
    (∀ (schema : TableSchema) (src : ArraySource) (json : Json),
        schema.array_source = some src → junctionParentId src json = none →
        isError (parse_junction_records (some json) schema) = true) := by
  refine ⟨fun _ _ => rfl, fun _ => rfl, ?_, ?_⟩
  · intro schema json col hmem hloc hnd hget
    rw [parseRecordVal_get_nonloc json schema col hmem hloc hnd]
    unfold extract_value
    rw [hget]
  · intro schema src json h hpid
    rw [junction_error_iff schema src h json]
    exact hpid

/-- C10 witness: a record with no fields at all parses with `published`
(and every column) Null on the registry schema `categories`. -/
theorem c10_witness :
    rowGet (parseRecordVal (Json.Obj []) CATEGORIES) "published" = some SqlValue.Null :=
  c10_parse_record_total.2.2.1 CATEGORIES (Json.Obj [])
    (Column.new "published" ColumnType.Boolean) (by decide) (by decide) (by decide) rfl


/-! ## Claim C8 -/

theorem mem_insertSorted {α : Type} (p q : String × α) (l : List (String × α)) :
    q ∈ insertSorted p l ↔ q = p ∨ q ∈ l := by
  induction l with
  | nil => simp [insertSorted]
  | cons a rest ih =>
    unfold insertSorted
    by_cases h : p.1 < a.1
    · rw [if_pos h]
      simp [List.mem_cons]
    · rw [if_neg h]
      simp only [List.mem_cons, ih]
      tauto

theorem mem_sortByKey {α : Type} (l : List (String × α)) (q : String × α) :
    q ∈ sortByKey l ↔ q ∈ l := by
  unfold sortByKey
  induction l with
  | nil => simp
  | cons a rest ih => simp [mem_insertSorted, ih]

/-- The claim's "named array field is absent, or is not an array" condition,
per strategy (for BlueprintActivity: the `activities` object is absent or no
activity holds the named array field as an array). -/
def junctionArrayAbsent (src : ArraySource) (json : Json) : Prop :=
  match src with
  | ArraySource.Simple af _ => ∀ xs, getField json af ≠ some (Json.Arr xs)
  | ArraySource.SimpleIntArray af _ _ => ∀ xs, getField json af ≠ some (Json.Arr xs)
  | ArraySource.NestedKeyValue af _ _ => ∀ xs, getField json af ≠ some (Json.Arr xs)
  | ArraySource.DoubleNested _ _ => ∀ xs, getField json "_value" ≠ some (Json.Arr xs)
  | ArraySource.BlueprintActivity _ af =>
      (∀ fs, getField json "activities" ≠ some (Json.Obj fs)) ∨
      (∃ fs, getField json "activities" = some (Json.Obj fs) ∧
        ∀ p ∈ fs, ∀ xs, getField p.2 af ≠ some (Json.Arr xs))

/-- C8: for every junction schema, `parse_junction_records` errors exactly
when the line is malformed JSON or the strategy's required parent identifier
(`_key`, or `blueprintTypeID` with fallback to `_key` for BlueprintActivity)
is missing or not an integer; when the parent identifier is present but the
named array field is absent or not an array, the call succeeds with zero
rows. -/
theorem c8_junction_error_conditions (schema : TableSchema) (src : ArraySource)
    (h : schema.array_source = some src) :
    isError (parse_junction_records none schema) = true ∧
    (∀ json : Json, isError (parse_junction_records (some json) schema) = true ↔
      junctionParentId src json = none) ∧
    (∀ json : Json, junctionParentId src json ≠ none → junctionArrayAbsent src json →
      parse_junction_records (some json) schema = Except.ok []) := by
  refine ⟨rfl, fun json => junction_error_iff schema src h json, ?_⟩
  intro json hpid habs
  unfold parse_junction_records
  rw [h]
  cases src with
  | Simple af pc =>
    unfold junctionParentId at hpid
    unfold parse_simple_array
    cases hpidv : (getField json "_key").bind asI64 with
    | none => exact absurd hpidv hpid
    | some pid =>
      cases hget : getField json af with
      | none => simp [hpidv, hget]
      | some v =>
        cases v <;> first
          | exact absurd hget (habs _)
          | simp [hpidv, hget]
  | SimpleIntArray af pc vc =>
    unfold junctionParentId at hpid
    unfold parse_simple_int_array
    cases hpidv : (getField json "_key").bind asI64 with
    | none => exact absurd hpidv hpid
    | some pid =>
      cases hget : getField json af with
      | none => simp [hpidv, hget]
      | some v =>
        cases v <;> first
          | exact absurd hget (habs _)
          | simp [hpidv, hget]
  | NestedKeyValue af pc nc =>
    unfold junctionParentId at hpid
    unfold parse_nested_key_value
    cases hpidv : (getField json "_key").bind asI64 with
    | none => exact absurd hpidv hpid
    | some pid =>
      cases hget : getField json af with
      | none => simp [hpidv, hget]
      | some v =>
        cases v <;> first
          | exact absurd hget (habs _)
          | simp [hpidv, hget]
  | DoubleNested pc lc =>
    unfold junctionParentId at hpid
    unfold parse_double_nested
    cases hpidv : (getField json "_key").bind asI64 with
    | none => exact absurd hpidv hpid
    | some pid =>
      cases hget : getField json "_value" with
      | none => simp [hpidv, hget]
      | some v =>
        cases v <;> first
          | exact absurd hget (habs _)
          | simp [hpidv, hget]
  | BlueprintActivity ac af =>
    unfold junctionParentId at hpid
    unfold parse_blueprint_activity
    cases hpidv : ((getField json "blueprintTypeID").orElse
        (fun _ => getField json "_key")).bind asI64 with
    | none => exact absurd hpidv hpid
    | some pid =>
      rcases habs with habs | ⟨fs, hfs, hinner⟩
      · cases hget : getField json "activities" with
        | none => simp [hpidv, hget]
        | some v =>
          cases v <;> first
            | exact absurd hget (habs _)
            | simp [hpidv, hget]
      · simp only [hpidv, hfs]
        refine congrArg Except.ok ?_
        rw [List.flatMap_eq_nil_iff]
        intro act hact
        have hmem : act ∈ fs := (mem_sortByKey fs act).mp hact
        cases hga : getField act.2 af with
        | none => simp [hga]
        | some v =>
          cases v <;> first
            | exact absurd hga (hinner act hmem _)
            | simp [hga]

/-- C8 witness: the theorem applied to the Simple-strategy junction table
`type_materials` — a record whose `_key` is present but whose `materials`
field is absent yields zero rows. -/
theorem c8_witness :
    junctionParentId (ArraySource.Simple "materials" "type_id")
      (Json.Obj [("_key", Json.Num (JsonNum.int 7))]) ≠ none ∧
    parse_junction_records (some (Json.Obj [("_key", Json.Num (JsonNum.int 7))]))
      TYPE_MATERIALS = Except.ok [] :=
  ⟨fun hc => Option.noConfusion hc,
   (c8_junction_error_conditions TYPE_MATERIALS (ArraySource.Simple "materials" "type_id")
      rfl).2.2 (Json.Obj [("_key", Json.Num (JsonNum.int 7))])
      (fun hc => Option.noConfusion hc)
      (fun _ hc => Option.noConfusion hc)⟩


/-! ## Resolver invariants (claims C1, C2, C3) -/

/-- Ordering invariant: every non-self dependency (within the included set)
of the table at position `i` appears among the names strictly before `i`. -/
def OrdProp (included : List String) (result : List TableSchema) : Prop :=
  ∀ i, ∀ hi : i < result.length, ∀ d,
    d ∈ (result.get ⟨i, hi⟩).dependencies → d ≠ (result.get ⟨i, hi⟩).name →
    d ∈ included →
    d ∈ (result.take i).map (fun t => t.name)

/-- The `visit` invariant: the result holds exactly the registry tables whose
names are visited, with distinct names, visited inside the included set, in
dependency order. -/
def RInv (included visited : List String) (result : List TableSchema) : Prop :=
  (∀ t : TableSchema, t ∈ result ↔ (t.name ∈ visited ∧ get_table t.name = some t)) ∧
  (result.map (fun t => t.name)).Nodup ∧
  (∀ x ∈ visited, x ∈ included) ∧
  OrdProp included result

/-- What a successful `visitF` call guarantees at a given fuel. -/
def VisitStmt (fuel : Nat) : Prop :=
  ∀ (name : String) (included visited temp : List String) (result : List TableSchema)
    (v : List String) (r : List TableSchema),
    visitF fuel name included visited temp result = Except.ok (v, r) →
    name ∈ included → RInv included visited result →
    RInv included v r ∧ (∀ x ∈ visited, x ∈ v) ∧ name ∈ v ∧
      (∀ x ∈ v, x ∈ visited ∨ x ∉ temp)

/-- What a successful `visitListF` call guarantees at a given fuel. -/
def ListStmt (fuel : Nat) : Prop :=
  ∀ (ds : List String) (included visited temp : List String) (result : List TableSchema)
    (v : List String) (r : List TableSchema),
    visitListF fuel ds included visited temp result = Except.ok (v, r) →
    (∀ d ∈ ds, d ∈ included) → RInv included visited result →
    RInv included v r ∧ (∀ x ∈ visited, x ∈ v) ∧ (∀ d ∈ ds, d ∈ v) ∧
      (∀ x ∈ v, x ∈ visited ∨ x ∉ temp)

theorem listStmt_of_visitStmt (fuel : Nat) (hv : VisitStmt fuel) : ListStmt fuel := by
  intro ds
  induction ds with
  | nil =>
    intro included visited temp result v r hok _ hinv
    rw [visitListF_nil] at hok
    obtain ⟨rfl, rfl⟩ : visited = v ∧ result = r := by
      injection hok with h
      exact ⟨congrArg Prod.fst h, congrArg Prod.snd h⟩
    exact ⟨hinv, fun x hx => hx, fun d hd => absurd hd (List.not_mem_nil d),
      fun x hx => Or.inl hx⟩
  | cons d ds ih =>
    intro included visited temp result v r hok hinc hinv
    rw [visitListF_cons] at hok
    cases hvd : visitF fuel d included visited temp result with
    | error e => rw [hvd] at hok; cases hok
    | ok p =>
      obtain ⟨v1, r1⟩ := p
      rw [hvd] at hok
      obtain ⟨hinv1, hmono1, hd1, hnew1⟩ :=
        hv d included visited temp result v1 r1 hvd (hinc d (List.mem_cons_self d ds)) hinv
      obtain ⟨hinv2, hmono2, hds2, hnew2⟩ :=
        ih included v1 temp r1 v r hok (fun x hx => hinc x (List.mem_cons_of_mem d hx)) hinv1
      refine ⟨hinv2, fun x hx => hmono2 x (hmono1 x hx), ?_, ?_⟩
      · intro e he
        rcases List.mem_cons.mp he with rfl | he2
        · exact hmono2 e hd1
        · exact hds2 e he2
      · intro x hx
        rcases hnew2 x hx with hx1 | hx2
        · exact hnew1 x hx1
        · exact Or.inr hx2

theorem visit_main : ∀ fuel, VisitStmt fuel := by
  intro fuel
  induction fuel with
  | zero =>
    intro name included visited temp result v r hok
    rw [visitF_zero] at hok
    cases hok
  | succ f ih =>
    have hlist := listStmt_of_visitStmt f ih
    intro name included visited temp result v r hok hinc hinv
    rw [visitF_succ] at hok
    by_cases htemp : name ∈ temp
    · rw [if_pos htemp] at hok; cases hok
    · rw [if_neg htemp] at hok
      by_cases hvis : name ∈ visited
      · rw [if_pos hvis] at hok
        obtain ⟨rfl, rfl⟩ : visited = v ∧ result = r := by
          injection hok with h
          exact ⟨congrArg Prod.fst h, congrArg Prod.snd h⟩
        exact ⟨hinv, fun x hx => hx, hvis, fun x hx => Or.inl hx⟩
      · rw [if_neg hvis] at hok
        cases hld : visitListF f (depListFor name included) included visited
            (name :: temp) result with
        | error e => rw [hld] at hok; cases hok
        | ok p =>
          obtain ⟨v1, r1⟩ := p
          rw [hld] at hok
          have hdsinc : ∀ d ∈ depListFor name included, d ∈ included := by
            intro d hd
            unfold depListFor at hd
            have h2 := List.mem_filter.mp hd
            have h3 := of_decide_eq_true h2.2
            exact h3.2
          obtain ⟨hinv1, hmono1, hds1, hnew1⟩ :=
            hlist (depListFor name included) included visited (name :: temp) result
              v1 r1 hld hdsinc hinv
          obtain ⟨hmem1, hnd1, hsub1, hord1⟩ := hinv1
          have hnotv1 : name ∉ v1 := by
            intro hn
            rcases hnew1 name hn with hn1 | hn2
            · exact hvis hn1
            · exact hn2 (List.mem_cons_self name temp)
          have hnotr1 : ∀ u : TableSchema, u ∈ r1 → u.name ≠ name := by
            intro u hu he
            exact hnotv1 (he ▸ ((hmem1 u).mp hu).1)
          cases hgt : get_table name with
          | some t =>
            rw [hgt] at hok
            obtain ⟨rfl, rfl⟩ : name :: v1 = v ∧ r1 ++ [t] = r := by
              injection hok with h
              exact ⟨congrArg Prod.fst h, congrArg Prod.snd h⟩
            have htname : t.name = name := get_table_name_eq hgt
            have htmem : t ∈ ALL_TABLES := get_table_mem hgt
            refine ⟨⟨?_, ?_, ?_, ?_⟩, fun x hx => List.mem_cons_of_mem _ (hmono1 x hx),
              List.mem_cons_self _ _, ?_⟩
            · intro u
              constructor
              · intro hu
                rcases List.mem_append.mp hu with hu1 | hu2
                · obtain ⟨hn, hg⟩ := (hmem1 u).mp hu1
                  exact ⟨List.mem_cons_of_mem _ hn, hg⟩
                · have : u = t := List.mem_singleton.mp hu2
                  subst this
                  exact ⟨htname ▸ List.mem_cons_self _ _, htname ▸ hgt⟩
              · rintro ⟨hn, hg⟩
                rcases List.mem_cons.mp hn with he | hn2
                · have : u = t := by
                    rw [he] at hg
                    rw [hgt] at hg
                    exact (Option.some.inj hg).symm
                  subst this
                  exact List.mem_append_right _ (List.mem_singleton_self u)
                · exact List.mem_append_left _ ((hmem1 u).mpr ⟨hn2, hg⟩)
            · rw [List.map_append]
              rw [List.nodup_append]
              refine ⟨hnd1, by simp, ?_⟩
              intro a ha hb
              simp only [List.map_cons, List.map_nil, List.mem_singleton] at hb
              obtain ⟨u, hu, hun⟩ := List.mem_map.mp ha
              exact hnotr1 u hu (by rw [hun, hb, htname])
            · intro x hx
              rcases List.mem_cons.mp hx with rfl | hx2
              · exact hinc
              · exact hsub1 x hx2
            · intro i hi dd hdd hdne hdinc
              rw [List.length_append, List.length_singleton] at hi
              by_cases hilt : i < r1.length
              · have hget : (r1 ++ [t]).get ⟨i, by simpa using hi⟩ = r1.get ⟨i, hilt⟩ := by
                  rw [List.get_append_left]
                have htake : (r1 ++ [t]).take i = r1.take i := by
                  rw [List.take_append_eq_append_take]
                  have : i - r1.length = 0 := by omega
                  rw [this]
                  simp
                rw [htake]
                rw [hget] at hdd hdne
                exact hord1 i hilt dd hdd hdne hdinc
              · have hieq : i = r1.length := by omega
                subst hieq
                have hget : (r1 ++ [t]).get ⟨r1.length, by simpa using hi⟩ = t := by
                  rw [List.get_append_right] <;> simp
                rw [hget] at hdd hdne
                have htake : (r1 ++ [t]).take r1.length = r1 := by
                  rw [List.take_append_eq_append_take]
                  simp
                rw [htake]
                have hdfilter : dd ∈ depListFor name included := by
                  unfold depListFor
                  rw [depsOf, hgt]
                  apply List.mem_filter.mpr
                  refine ⟨hdd, decide_eq_true ⟨htname ▸ hdne, hdinc⟩⟩
                have hdv1 : dd ∈ v1 := hds1 dd hdfilter
                have hdsome : (get_table dd).isSome = true := deps_valid t htmem dd hdd
                obtain ⟨u, hu⟩ := Option.isSome_iff_exists.mp hdsome
                have hun : u.name = dd := get_table_name_eq hu
                have hur1 : u ∈ r1 := (hmem1 u).mpr ⟨hun ▸ hdv1, hun ▸ hu⟩
                exact List.mem_map.mpr ⟨u, hur1, hun⟩
            · intro x hx
              rcases List.mem_cons.mp hx with rfl | hx2
              · exact Or.inr htemp
              · rcases hnew1 x hx2 with hx3 | hx4
                · exact Or.inl hx3
                · exact Or.inr (fun hc => hx4 (List.mem_cons_of_mem _ hc))
          | none =>
            rw [hgt] at hok
            obtain ⟨rfl, rfl⟩ : name :: v1 = v ∧ r1 = r := by
              injection hok with h
              exact ⟨congrArg Prod.fst h, congrArg Prod.snd h⟩
            refine ⟨⟨?_, hnd1, ?_, hord1⟩, fun x hx => List.mem_cons_of_mem _ (hmono1 x hx),
              List.mem_cons_self _ _, ?_⟩
            · intro u
              constructor
              · intro hu
                obtain ⟨hn, hg⟩ := (hmem1 u).mp hu
                exact ⟨List.mem_cons_of_mem _ hn, hg⟩
              · rintro ⟨hn, hg⟩
                rcases List.mem_cons.mp hn with he | hn2
                · rw [he] at hg
                  rw [hgt] at hg
                  cases hg
                · exact (hmem1 u).mpr ⟨hn2, hg⟩
            · intro x hx
              rcases List.mem_cons.mp hx with rfl | hx2
              · exact hinc
              · exact hsub1 x hx2
            · intro x hx
              rcases List.mem_cons.mp hx with rfl | hx2
              · exact Or.inr htemp
              · rcases hnew1 x hx2 with hx3 | hx4
                · exact Or.inl hx3
                · exact Or.inr (fun hc => hx4 (List.mem_cons_of_mem _ hc))


theorem topoGo_main (fuel : Nat) (included : List String) :
    ∀ (ns visited : List String) (result l : List TableSchema),
      topoGo fuel included ns visited result = Except.ok l →
      (∀ n ∈ ns, n ∈ included) → RInv included visited result →
      ∃ v, RInv included v l ∧ (∀ x ∈ visited, x ∈ v) ∧ (∀ n ∈ ns, n ∈ v) := by
  intro ns
  induction ns with
  | nil =>
    intro visited result l hok _ hinv
    simp only [topoGo] at hok
    obtain rfl : result = l := by injection hok
    exact ⟨visited, hinv, fun x hx => hx, fun n hn => absurd hn (List.not_mem_nil n)⟩
  | cons n ns ih =>
    intro visited result l hok hns hinv
    simp only [topoGo] at hok
    by_cases hv : n ∈ visited
    · rw [if_pos hv] at hok
      obtain ⟨w, h1, h2, h3⟩ := ih visited result l hok
        (fun m hm => hns m (List.mem_cons_of_mem n hm)) hinv
      refine ⟨w, h1, h2, ?_⟩
      intro m hm
      rcases List.mem_cons.mp hm with rfl | hm2
      · exact h2 m hv
      · exact h3 m hm2
    · rw [if_neg hv] at hok
      cases hvt : visitF fuel n included visited [] result with
      | error e => rw [hvt] at hok; cases hok
      | ok p =>
        obtain ⟨v1, r1⟩ := p
        rw [hvt] at hok
        obtain ⟨hinv1, hmono1, hn1, _⟩ :=
          visit_main fuel n included visited [] result v1 r1 hvt
            (hns n (List.mem_cons_self n ns)) hinv
        obtain ⟨w, h1, h2, h3⟩ := ih v1 r1 l hok
          (fun m hm => hns m (List.mem_cons_of_mem n hm)) hinv1
        refine ⟨w, h1, fun x hx => h2 x (hmono1 x hx), ?_⟩
        intro m hm
        rcases List.mem_cons.mp hm with rfl | hm2
        · exact h2 m hn1
        · exact h3 m hm2

theorem rinv_initial (included : List String) : RInv included [] [] := by
  refine ⟨?_, List.nodup_nil, ?_, ?_⟩
  · intro t
    simp
  · intro x hx
    cases hx
  · intro i hi
    cases hi

theorem topological_sort_spec (included : List String) (l : List TableSchema)
    (hok : topological_sort included = Except.ok l) :
    (∀ t : TableSchema, t ∈ l ↔ (t.name ∈ included ∧ get_table t.name = some t)) ∧
    (l.map (fun t => t.name)).Nodup ∧
    OrdProp included l := by
  unfold topological_sort at hok
  obtain ⟨v, ⟨hmem, hnd, hsub, hord⟩, _, hall⟩ :=
    topoGo_main 100 included included [] [] l hok (fun n hn => hn) (rinv_initial included)
  refine ⟨?_, hnd, hord⟩
  intro t
  rw [hmem t]
  constructor
  · rintro ⟨h1, h2⟩
    exact ⟨hsub t.name h1, h2⟩
  · rintro ⟨h1, h2⟩
    exact ⟨hall t.name h1, h2⟩

/-! ## Claim C1 -/

theorem topological_sort_dep_ordered (included : List String) (l : List TableSchema)
    (hok : topological_sort included = Except.ok l) : DepOrdered l := by
  intro i hi j hj hfk hne
  obtain ⟨hmem, hnd, hord⟩ := topological_sort_spec included l hok
  have hd : (l.get ⟨j, hj⟩).name ∈ (l.get ⟨i, hi⟩).dependencies :=
    (dependencies_iff _ _).mpr hfk
  have hT2l : l.get ⟨j, hj⟩ ∈ l := l.get_mem _ _
  have hT2inc : (l.get ⟨j, hj⟩).name ∈ included := ((hmem _).mp hT2l).1
  have htake := hord i hi _ hd hne hT2inc
  obtain ⟨u, humem, huname⟩ := List.mem_map.mp htake
  obtain ⟨k, hk⟩ := List.mem_iff_get.mp humem
  have hklt : (k : Nat) < i := by
    have h1 := k.isLt
    have h2 : (List.take i l).length = min i l.length := List.length_take i l
    omega
  have hkl : (k : Nat) < l.length := by omega
  have hk2 : l.get ⟨k, hkl⟩ = u := by
    rw [← hk]
    exact (List.get_take' l).symm
  have hmapeq : (l.map (fun t => t.name)).get ⟨k, by simpa using hkl⟩ =
      (l.map (fun t => t.name)).get ⟨j, by simpa using hj⟩ := by
    rw [List.get_map, List.get_map]
    rw [hk2, huname]
  have hkj : (⟨k, by simpa using hkl⟩ : Fin (l.map (fun t => t.name)).length) =
      ⟨j, by simpa using hj⟩ :=
    (List.nodup_iff_injective_get.mp hnd) hmapeq
  have : (k : Nat) = j := by
    have := congrArg Fin.val hkj
    simpa using this
  omega

/-- C1: in every list of tables returned by `resolve_includes`,
`resolve_excludes`, or `all_tables_ordered`, whenever table T1 has a foreign
key naming T2 and T2 is not T1 itself, T2 appears at a strictly earlier
position than T1. -/
theorem c1_resolver_dependency_order :
    (∀ (requested : List String) (l : List TableSchema),
        resolve_includes requested = Except.ok l → DepOrdered l) ∧
    (∀ (excluded : List String) (l : List TableSchema),
        resolve_excludes excluded = Except.ok l → DepOrdered l) ∧
    DepOrdered all_tables_ordered := by
  refine ⟨?_, ?_, by decide⟩
  · intro requested l hok
    unfold resolve_includes at hok
    cases hbfs : includeClosure (requested.length + 1000) [] requested with
    | error e => rw [hbfs] at hok; cases hok
    | ok inc =>
      rw [hbfs] at hok
      exact topological_sort_dep_ordered inc l hok
  · intro excluded l hok
    unfold resolve_excludes at hok
    cases hfind : excluded.find? (fun n => (get_table n).isNone) with
    | some n => rw [hfind] at hok; cases hok
    | none =>
      rw [hfind] at hok
      exact topological_sort_dep_ordered _ l hok

/-- C1 witness: the ordering property holds on the concrete result of
`resolve_includes ["types"]`. -/
theorem c1_witness : DepOrdered (getOk [] (resolve_includes ["types"])) :=
  c1_resolver_dependency_order.1 ["types"] _ rfl


/-! ## Claim C2: the BFS closure -/

/-- Everything the BFS returns lies in any set that contains the queue and
the accumulator and is closed under dependencies and child tables. -/
theorem includeClosure_subset_closed (S : Set String)
    (hS : ∀ n ∈ S, ∀ t : TableSchema, get_table n = some t →
      (∀ d ∈ t.dependencies, d ∈ S) ∧ (∀ c ∈ t.child_tables, c ∈ S)) :
    ∀ (fuel : Nat) (inc q out : List String),
      includeClosure fuel inc q = Except.ok out →
      (∀ x ∈ inc, x ∈ S) → (∀ x ∈ q, x ∈ S) → ∀ x ∈ out, x ∈ S := by
  intro fuel
  induction fuel with
  | zero =>
    intro inc q out hok hinc hq
    cases q with
    | nil =>
      obtain rfl : inc = out := by injection hok
      exact hinc
    | cons n q' => cases hok
  | succ f ih =>
    intro inc q out hok hinc hq
    cases q with
    | nil =>
      obtain rfl : inc = out := by injection hok
      exact hinc
    | cons n q' =>
      simp only [includeClosure] at hok
      by_cases hn : n ∈ inc
      · rw [if_pos hn] at hok
        exact ih inc q' out hok hinc (fun x hx => hq x (List.mem_cons_of_mem n hx))
      · rw [if_neg hn] at hok
        cases hgt : get_table n with
        | none => rw [hgt] at hok; cases hok
        | some t =>
          rw [hgt] at hok
          have hnS : n ∈ S := hq n (List.mem_cons_self n q')
          apply ih _ _ out hok
          · intro x hx
            rcases List.mem_append.mp hx with hx1 | hx2
            · exact hinc x hx1
            · rw [List.mem_singleton.mp hx2]
              exact hnS
          · intro x hx
            rcases List.mem_append.mp hx with hx1 | hx2
            · rcases List.mem_append.mp hx1 with hx3 | hx4
              · exact hq x (List.mem_cons_of_mem n hx3)
              · exact (hS n hnS t hgt).1 x (List.mem_filter.mp hx4).1
            · exact (hS n hnS t hgt).2 x (List.mem_filter.mp hx2).1

/-- The accumulator and the queue both end up in the BFS output. -/
theorem includeClosure_grows :
    ∀ (fuel : Nat) (inc q out : List String),
      includeClosure fuel inc q = Except.ok out →
      (∀ x ∈ inc, x ∈ out) ∧ (∀ x ∈ q, x ∈ out) := by
  intro fuel
  induction fuel with
  | zero =>
    intro inc q out hok
    cases q with
    | nil =>
      obtain rfl : inc = out := by injection hok
      exact ⟨fun x hx => hx, fun x hx => absurd hx (List.not_mem_nil x)⟩
    | cons n q' => cases hok
  | succ f ih =>
    intro inc q out hok
    cases q with
    | nil =>
      obtain rfl : inc = out := by injection hok
      exact ⟨fun x hx => hx, fun x hx => absurd hx (List.not_mem_nil x)⟩
    | cons n q' =>
      simp only [includeClosure] at hok
      by_cases hn : n ∈ inc
      · rw [if_pos hn] at hok
        obtain ⟨h1, h2⟩ := ih inc q' out hok
        refine ⟨h1, ?_⟩
        intro x hx
        rcases List.mem_cons.mp hx with rfl | hx2
        · exact h1 x hn
        · exact h2 x hx2
      · rw [if_neg hn] at hok
        cases hgt : get_table n with
        | none => rw [hgt] at hok; cases hok
        | some t =>
          rw [hgt] at hok
          obtain ⟨h1, h2⟩ := ih _ _ out hok
          have hnout : n ∈ out :=
            h1 n (List.mem_append_right _ (List.mem_singleton_self n))
          refine ⟨fun x hx => h1 x (List.mem_append_left _ hx), ?_⟩
          intro x hx
          rcases List.mem_cons.mp hx with rfl | hx2
          · exact hnout
          · exact h2 x (List.mem_append_left _ (List.mem_append_left _ hx2))

/-- At success the BFS output is closed under dependencies and child tables,
provided the accumulator is closed up to the queue. -/
theorem includeClosure_closed :
    ∀ (fuel : Nat) (inc q out : List String),
      includeClosure fuel inc q = Except.ok out →
      (∀ n ∈ inc, ∀ t : TableSchema, get_table n = some t →
        (∀ d ∈ t.dependencies, d ∈ inc ∨ d ∈ q) ∧
        (∀ c ∈ t.child_tables, c ∈ inc ∨ c ∈ q)) →
      ∀ n ∈ out, ∀ t : TableSchema, get_table n = some t →
        (∀ d ∈ t.dependencies, d ∈ out) ∧ (∀ c ∈ t.child_tables, c ∈ out) := by
  intro fuel
  induction fuel with
  | zero =>
    intro inc q out hok hcl
    cases q with
    | nil =>
      obtain rfl : inc = out := by injection hok
      intro n hn t hgt
      refine ⟨fun d hd => ?_, fun c hc => ?_⟩
      · rcases (hcl n hn t hgt).1 d hd with h | h
        · exact h
        · cases h
      · rcases (hcl n hn t hgt).2 c hc with h | h
        · exact h
        · cases h
    | cons n q' => cases hok
  | succ f ih =>
    intro inc q out hok hcl
    cases q with
    | nil =>
      obtain rfl : inc = out := by injection hok
      intro n hn t hgt
      refine ⟨fun d hd => ?_, fun c hc => ?_⟩
      · rcases (hcl n hn t hgt).1 d hd with h | h
        · exact h
        · cases h
      · rcases (hcl n hn t hgt).2 c hc with h | h
        · exact h
        · cases h
    | cons n q' =>
      simp only [includeClosure] at hok
      by_cases hn : n ∈ inc
      · rw [if_pos hn] at hok
        apply ih inc q' out hok
        intro m hm t hgt
        refine ⟨fun d hd => ?_, fun c hc => ?_⟩
        · rcases (hcl m hm t hgt).1 d hd with h | h
          · exact Or.inl h
          · rcases List.mem_cons.mp h with rfl | h2
            · exact Or.inl hn
            · exact Or.inr h2
        · rcases (hcl m hm t hgt).2 c hc with h | h
          · exact Or.inl h
          · rcases List.mem_cons.mp h with rfl | h2
            · exact Or.inl hn
            · exact Or.inr h2
      · rw [if_neg hn] at hok
        cases hgt0 : get_table n with
        | none => rw [hgt0] at hok; cases hok
        | some t0 =>
          rw [hgt0] at hok
          apply ih _ _ out hok
          intro m hm t hgt
          rcases List.mem_append.mp hm with hm1 | hm2
          · -- m was already in inc
            refine ⟨fun d hd => ?_, fun c hc => ?_⟩
            · rcases (hcl m hm1 t hgt).1 d hd with h | h
              · exact Or.inl (List.mem_append_left _ h)
              · rcases List.mem_cons.mp h with rfl | h2
                · exact Or.inl (List.mem_append_right _ (List.mem_singleton_self d))
                · exact Or.inr (List.mem_append_left _ (List.mem_append_left _ h2))
            · rcases (hcl m hm1 t hgt).2 c hc with h | h
              · exact Or.inl (List.mem_append_left _ h)
              · rcases List.mem_cons.mp h with rfl | h2
                · exact Or.inl (List.mem_append_right _ (List.mem_singleton_self c))
                · exact Or.inr (List.mem_append_left _ (List.mem_append_left _ h2))
          · -- m = n, the freshly inserted name
            have heq : m = n := List.mem_singleton.mp hm2
            subst heq
            have heq2 : t = t0 := by
              rw [hgt0] at hgt
              exact (Option.some.inj hgt).symm
            subst heq2
            refine ⟨fun d hd => ?_, fun c hc => ?_⟩
            · by_cases hdi : d ∈ inc ++ [m]
              · exact Or.inl hdi
              · refine Or.inr (List.mem_append_left _ (List.mem_append_right _ ?_))
                exact List.mem_filter.mpr ⟨hd, decide_eq_true hdi⟩
            · by_cases hci : c ∈ inc ++ [m]
              · exact Or.inl hci
              · refine Or.inr (List.mem_append_right _ ?_)
                exact List.mem_filter.mpr ⟨hc, decide_eq_true hci⟩

/-- Every name the BFS outputs is a registry name (only validated names are
accumulated). -/
theorem includeClosure_valid :
    ∀ (fuel : Nat) (inc q out : List String),
      includeClosure fuel inc q = Except.ok out →
      (∀ x ∈ inc, (get_table x).isSome = true) →
      ∀ x ∈ out, (get_table x).isSome = true := by
  intro fuel
  induction fuel with
  | zero =>
    intro inc q out hok hinc
    cases q with
    | nil =>
      obtain rfl : inc = out := by injection hok
      exact hinc
    | cons n q' => cases hok
  | succ f ih =>
    intro inc q out hok hinc
    cases q with
    | nil =>
      obtain rfl : inc = out := by injection hok
      exact hinc
    | cons n q' =>
      simp only [includeClosure] at hok
      by_cases hn : n ∈ inc
      · rw [if_pos hn] at hok
        exact ih inc q' out hok hinc
      · rw [if_neg hn] at hok
        cases hgt : get_table n with
        | none => rw [hgt] at hok; cases hok
        | some t =>
          rw [hgt] at hok
          apply ih _ _ out hok
          intro x hx
          rcases List.mem_append.mp hx with hx1 | hx2
          · exact hinc x hx1
          · rw [List.mem_singleton.mp hx2, hgt]
            rfl


/-- C2: when `resolve_includes(requested)` succeeds, its set of table names
is the least fixed point containing every requested table and closed under
two rules: for every table in the set, every table named by any of its
foreign keys' `references_table` is in the set, and every name in its
`child_tables` list is in the set. -/
theorem c2_resolve_includes_least_closure (requested : List String) (l : List TableSchema)
    (hok : resolve_includes requested = Except.ok l) :
    (∀ n ∈ requested, n ∈ l.map (fun t => t.name)) ∧
    (∀ n ∈ l.map (fun t => t.name), ∀ t : TableSchema, get_table n = some t →
      (∀ fk ∈ t.foreign_keys, fk.references_table ∈ l.map (fun t => t.name)) ∧
      (∀ c ∈ t.child_tables, c ∈ l.map (fun t => t.name))) ∧
    (∀ S : Set String,
      (∀ n ∈ requested, n ∈ S) →
      (∀ n ∈ S, ∀ t : TableSchema, get_table n = some t →
        (∀ fk ∈ t.foreign_keys, fk.references_table ∈ S) ∧
        (∀ c ∈ t.child_tables, c ∈ S)) →
      ∀ n ∈ l.map (fun t => t.name), n ∈ S) := by
  unfold resolve_includes at hok
  cases hbfs : includeClosure (requested.length + 1000) [] requested with
  | error e => rw [hbfs] at hok; cases hok
  | ok inc =>
    rw [hbfs] at hok
    obtain ⟨hmem, hnd, hord⟩ := topological_sort_spec inc l hok
    have hvalid : ∀ x ∈ inc, (get_table x).isSome = true :=
      includeClosure_valid _ [] requested inc hbfs
        (fun x hx => absurd hx (List.not_mem_nil x))
    have hnames : ∀ n, n ∈ l.map (fun t => t.name) ↔ n ∈ inc := by
      intro n
      constructor
      · intro hn
        obtain ⟨t, htl, rfl⟩ := List.mem_map.mp hn
        exact ((hmem t).mp htl).1
      · intro hn
        obtain ⟨t, ht⟩ := Option.isSome_iff_exists.mp (hvalid n hn)
        have hteq := get_table_name_eq ht
        refine List.mem_map.mpr ⟨t, (hmem t).mpr ⟨?_, ?_⟩, hteq⟩
        · rw [hteq]; exact hn
        · rw [hteq]; exact ht
    have hgrow := includeClosure_grows _ [] requested inc hbfs
    have hclosed := includeClosure_closed _ [] requested inc hbfs
      (fun n hn => absurd hn (List.not_mem_nil n))
    refine ⟨?_, ?_, ?_⟩
    · intro n hn
      rw [hnames]
      exact hgrow.2 n hn
    · intro n hn t hgt
      rw [hnames] at hn
      obtain ⟨h1, h2⟩ := hclosed n hn t hgt
      constructor
      · intro fk hfk
        rw [hnames]
        exact h1 _ ((dependencies_iff t fk.references_table).mpr ⟨fk, hfk, rfl⟩)
      · intro c hc
        rw [hnames]
        exact h2 c hc
    · intro S hreq hSclosed n hn
      rw [hnames] at hn
      refine includeClosure_subset_closed S ?_ _ [] requested inc hbfs
        (fun x hx => absurd hx (List.not_mem_nil x)) hreq n hn
      intro m hm t hgt
      constructor
      · intro d hd
        obtain ⟨fk, hfk, rfl⟩ := (dependencies_iff t d).mp hd
        exact (hSclosed m hm t hgt).1 fk hfk
      · exact (hSclosed m hm t hgt).2

/-- C2 witness: the theorem applied to the concrete request `["skins"]`
(whose closure adds the foreign-key parent `skin_materials`). -/
theorem c2_witness :
    (∀ n ∈ ["skins"], n ∈ (getOk [] (resolve_includes ["skins"])).map (fun t => t.name)) ∧
    (∀ n ∈ (getOk [] (resolve_includes ["skins"])).map (fun t => t.name),
      ∀ t : TableSchema, get_table n = some t →
      (∀ fk ∈ t.foreign_keys,
        fk.references_table ∈ (getOk [] (resolve_includes ["skins"])).map (fun t => t.name)) ∧
      (∀ c ∈ t.child_tables,
        c ∈ (getOk [] (resolve_includes ["skins"])).map (fun t => t.name))) ∧
    (∀ S : Set String,
      (∀ n ∈ ["skins"], n ∈ S) →
      (∀ n ∈ S, ∀ t : TableSchema, get_table n = some t →
        (∀ fk ∈ t.foreign_keys, fk.references_table ∈ S) ∧
        (∀ c ∈ t.child_tables, c ∈ S)) →
      ∀ n ∈ (getOk [] (resolve_includes ["skins"])).map (fun t => t.name), n ∈ S) :=
  c2_resolve_includes_least_closure ["skins"] _ rfl


/-! ## Claim C3: resolve_excludes succeeds and is a one-level filter -/

/-- On the registry DAG, `visitF` succeeds whenever its fuel exceeds the
registry position of the visited name and everything on the visiting stack
sits strictly later in registry order. -/
theorem visit_ok :
    ∀ (fuel : Nat) (name : String) (included visited temp : List String)
      (result : List TableSchema),
      (get_table name).isSome = true →
      (∀ x ∈ temp, (get_table x).isSome = true ∧ tableIdx name < tableIdx x) →
      tableIdx name < fuel →
      ∃ v r, visitF fuel name included visited temp result = Except.ok (v, r) := by
  intro fuel
  induction fuel with
  | zero =>
    intro name included visited temp result _ _ hidx
    omega
  | succ f ih =>
    intro name included visited temp result hval htemp hidx
    have hnc : name ∉ temp := fun hmem => absurd (htemp name hmem).2 (lt_irrefl _)
    rw [visitF_succ, if_neg hnc]
    by_cases hvis : name ∈ visited
    · rw [if_pos hvis]
      exact ⟨visited, result, rfl⟩
    · rw [if_neg hvis]
      obtain ⟨t, ht⟩ := Option.isSome_iff_exists.mp hval
      have htmem : t ∈ ALL_TABLES := get_table_mem ht
      have htname : t.name = name := get_table_name_eq ht
      have hds : ∀ d ∈ depListFor name included,
          (get_table d).isSome = true ∧ tableIdx d < tableIdx name := by
        intro d hd
        unfold depListFor at hd
        rw [depsOf, ht] at hd
        have h2 := List.mem_filter.mp hd
        have h3 := of_decide_eq_true h2.2
        have hdd : d ∈ t.dependencies := h2.1
        refine ⟨deps_valid t htmem d hdd, ?_⟩
        have := edge_idx t htmem d hdd (htname ▸ h3.1)
        rw [htname] at this
        exact this
      have hlist : ∀ (ds : List String),
          (∀ d ∈ ds, (get_table d).isSome = true ∧ tableIdx d < tableIdx name) →
          ∀ (vis : List String) (res : List TableSchema),
          ∃ v r, visitListF f ds included vis (name :: temp) res = Except.ok (v, r) := by
        intro ds
        induction ds with
        | nil =>
          intro _ vis res
          exact ⟨vis, res, visitListF_nil f included vis (name :: temp) res⟩
        | cons d ds ihd =>
          intro hds2 vis res
          obtain ⟨hv, hi⟩ := hds2 d (List.mem_cons_self d ds)
          have hcond : ∀ x ∈ name :: temp,
              (get_table x).isSome = true ∧ tableIdx d < tableIdx x := by
            intro x hx
            rcases List.mem_cons.mp hx with rfl | hx2
            · exact ⟨hval, hi⟩
            · obtain ⟨hx3, hx4⟩ := htemp x hx2
              exact ⟨hx3, lt_trans hi hx4⟩
          obtain ⟨v1, r1, h1⟩ := ih d included vis (name :: temp) res hv hcond (by omega)
          obtain ⟨v2, r2, h2⟩ :=
            ihd (fun m hm => hds2 m (List.mem_cons_of_mem d hm)) v1 r1
          refine ⟨v2, r2, ?_⟩
          rw [visitListF_cons, h1]
          exact h2
      obtain ⟨v1, r1, h1⟩ := hlist (depListFor name included) hds visited result
      rw [h1, ht]
      exact ⟨name :: v1, r1 ++ [t], rfl⟩

/-- `topoGo` with fuel 100 succeeds on any worklist of registry names. -/
theorem topoGo_ok :
    ∀ (ns included visited : List String) (result : List TableSchema),
      (∀ n ∈ ns, (get_table n).isSome = true) →
      ∃ l, topoGo 100 included ns visited result = Except.ok l := by
  intro ns
  induction ns with
  | nil =>
    intro included visited result _
    exact ⟨result, rfl⟩
  | cons n ns ih =>
    intro included visited result hval
    simp only [topoGo]
    by_cases hv : n ∈ visited
    · rw [if_pos hv]
      exact ih included visited result (fun m hm => hval m (List.mem_cons_of_mem n hm))
    · rw [if_neg hv]
      have hvn := hval n (List.mem_cons_self n ns)
      have hidx : tableIdx n < 100 := by
        obtain ⟨t, ht⟩ := Option.isSome_iff_exists.mp hvn
        have := idx_bound t (get_table_mem ht)
        rw [get_table_name_eq ht] at this
        exact this
      obtain ⟨v, r, hvr⟩ := visit_ok 100 n included visited [] result hvn
        (fun x hx => absurd hx (List.not_mem_nil x)) hidx
      rw [hvr]
      exact ih included v r (fun m hm => hval m (List.mem_cons_of_mem n hm))

/-- C3: when every excluded name is a registry table, `resolve_excludes`
succeeds and returns exactly the registry tables that are not excluded and
have no foreign key referencing an excluded table — the cascade is one level
only, so a table whose only dropped parent was removed by the cascade (but
is not itself in the excluded list) remains in the result. -/
theorem c3_resolve_excludes_shallow_cascade (excluded : List String)
    (h : ∀ n ∈ excluded, (get_table n).isSome = true) :
    ∃ l, resolve_excludes excluded = Except.ok l ∧
      ∀ t : TableSchema, t ∈ l ↔
        (t ∈ ALL_TABLES ∧ t.name ∉ excluded ∧
         ∀ fk ∈ t.foreign_keys, fk.references_table ∉ excluded) := by
  unfold resolve_excludes
  have hfind : excluded.find? (fun n => (get_table n).isNone) = none := by
    rw [List.find?_eq_none]
    intro n hn hcontra
    have h1 := h n hn
    rw [Option.isNone_iff_eq_none] at hcontra
    rw [hcontra] at h1
    cases h1
  rw [hfind]
  have hval : ∀ n ∈ (ALL_TABLES.filter (fun t =>
      decide (t.name ∉ excluded ∧
        ∀ fk ∈ t.foreign_keys, fk.references_table ∉ excluded))).map (fun t => t.name),
      (get_table n).isSome = true := by
    intro n hn
    obtain ⟨t, htf, rfl⟩ := List.mem_map.mp hn
    rw [get_table_of_mem (List.mem_filter.mp htf).1]
    rfl
  unfold topological_sort
  obtain ⟨l, hok⟩ := topoGo_ok _ _ [] [] hval
  refine ⟨l, hok, ?_⟩
  obtain ⟨hmem, hnd, hord⟩ := topological_sort_spec _ l hok
  intro t
  rw [hmem t]
  constructor
  · rintro ⟨hninc, hgt⟩
    obtain ⟨u, huf, hun⟩ := List.mem_map.mp hninc
    obtain ⟨humem, hucond⟩ := List.mem_filter.mp huf
    have hu2 : get_table u.name = some u := get_table_of_mem humem
    rw [hun] at hu2
    rw [hu2] at hgt
    obtain rfl : u = t := Option.some.inj hgt
    obtain ⟨hc1, hc2⟩ := of_decide_eq_true hucond
    exact ⟨humem, hc1, hc2⟩
  · rintro ⟨hall, hnex, hfks⟩
    refine ⟨?_, get_table_of_mem hall⟩
    exact List.mem_map.mpr
      ⟨t, List.mem_filter.mpr ⟨hall, decide_eq_true ⟨hnex, hfks⟩⟩, rfl⟩

/-- C3 witness: excluding `categories` drops `categories` and its direct
children (e.g. `groups`), while grandchildren such as `types` remain. -/
theorem c3_witness :
    ∃ l, resolve_excludes ["categories"] = Except.ok l ∧
      ∀ t : TableSchema, t ∈ l ↔
        (t ∈ ALL_TABLES ∧ t.name ∉ ["categories"] ∧
         ∀ fk ∈ t.foreign_keys, fk.references_table ∉ ["categories"]) :=
  c3_resolve_excludes_shallow_cascade ["categories"] (by decide)

end Sde
